import Mathlib

/-!
Verification development for the coinbot-server decision-and-replay pipeline.

All numeric computation in the source is JavaScript `number` arithmetic; it is
modelled here by exact rational arithmetic (`ℚ`), the usual idealisation.
`Math.sqrt` (used only for the Bollinger standard deviation) is modelled by
`sqrtQ`, which is exact on rational perfect squares — the only inputs at which
any theorem below evaluates it — and a floor approximation elsewhere.
JavaScript `x || d` (falsy fallback, where `0` and `undefined` are falsy) is
modelled by `jsOr`/`jsOrN`; ES destructuring defaults (which fire only on
`undefined`) are modelled by `Option.getD`.  Human-readable reason strings
carry no data used by any computation except three `String.includes` checks in
the risk managers; they are modelled by inductive tags mirroring each distinct
string the source can produce.
-/

/-- JavaScript `x || d` for an optional number: `undefined` and `0` fall back. -/
def jsOr (o : Option ℚ) (d : ℚ) : ℚ :=
  match o with
  | some v => if v = 0 then d else v
  | none => d

/-- JavaScript `x || d` for an optional natural-valued number. -/
def jsOrN (o : Option ℕ) (d : ℕ) : ℕ :=
  match o with
  | some v => if v = 0 then d else v
  | none => d

/-- Model of JavaScript `Math.sqrt` on rationals: for `q = a/b` in lowest terms
the value is `Nat.sqrt (a*b) / b`, which is the exact square root whenever `q`
is the square of a rational (in particular `sqrtQ 0 = 0`), and a floor
approximation otherwise.  Negative inputs yield `0` (`Int.toNat`). -/
def sqrtQ (q : ℚ) : ℚ := ((Nat.sqrt (q.num.toNat * q.den) : ℤ) : ℚ) / (q.den : ℚ)

theorem sqrtQ_zero : sqrtQ 0 = 0 := by simp [sqrtQ]

/-- JavaScript `Math.round`: round half toward positive infinity. -/
def jsRound (q : ℚ) : ℚ := ((⌊q + 1/2⌋ : ℤ) : ℚ)

namespace IndicatorCalculator

/-- Result type of `calculateBollingerBands` (src/core/indicator-calculator.ts). -/
structure BollingerBands where
  upper : ℚ
  middle : ℚ
  lower : ℚ
  bandwidth : ℚ

/-- Result type of `calculateMACD`. -/
structure MACDResult where
  macdLine : ℚ
  signalLine : ℚ
  histogram : ℚ

/-- `IndicatorCalculator.calculateBollingerBands` (indicator-calculator.ts:29-57).
Prices are most-recent-first; with fewer than `period` points the zeroed
sentinel is returned. -/
def calculateBollingerBands (prices : List ℚ) (period : ℕ) (stdDevMultiplier : ℚ) :
    BollingerBands :=
  if prices.length < period then ⟨0, 0, 0, 0⟩
  else
    let currentPrices := prices.take period
    let n : ℚ := (currentPrices.length : ℚ)
    let sma := currentPrices.sum / n
    let variance := (currentPrices.map (fun p => (p - sma) ^ 2)).sum / n
    let stdDev := sqrtQ variance
    let upper := sma + stdDev * stdDevMultiplier
    let lower := sma - stdDev * stdDevMultiplier
    let bandwidth := if sma = 0 then 0 else (upper - lower) / sma
    ⟨upper, sma, lower, bandwidth⟩

/-- `IndicatorCalculator.calculateEMA` (indicator-calculator.ts:65-78).
Prices are oldest-to-newest; with fewer than `period` points the most recent
price (or 0 when empty) is returned. -/
def calculateEMA (prices : List ℚ) (period : ℕ) : ℚ :=
  if prices.length < period then (prices.getLast?).getD 0
  else
    let multiplier : ℚ := 2 / ((period : ℚ) + 1)
    (prices.drop period).foldl (fun ema p => (p - ema) * multiplier + ema)
      ((prices.take period).sum / (period : ℚ))

/-- `IndicatorCalculator.calculateRSI` (indicator-calculator.ts:86-123).
Prices are most-recent-first; with fewer than `period + 1` points the neutral
value 50 is returned; with zero average loss, 100. -/
def calculateRSI (prices : List ℚ) (period : ℕ) : ℚ :=
  if prices.length < period + 1 then 50
  else
    let changes := List.zipWith (fun a b => a - b) prices (prices.drop 1)
    let recent := changes.take period
    let gains := recent.map (fun c => if c > 0 then c else 0)
    let losses := recent.map (fun c => if c > 0 then 0 else |c|)
    let avgGain := gains.sum / (period : ℚ)
    let avgLoss := losses.sum / (period : ℚ)
    if avgLoss = 0 then 100
    else
      let rs := avgGain / avgLoss
      100 - 100 / (1 + rs)

/-- `IndicatorCalculator.calculateMACD` (indicator-calculator.ts:129-197).
Prices are most-recent-first; `none` when fewer than
`longPeriod + signalPeriod - 1` points are available. -/
def calculateMACD (prices : List ℚ) (shortPeriod longPeriod signalPeriod : ℕ) :
    Option MACDResult :=
  if prices.length < longPeriod + signalPeriod - 1 then none
  else
    let reversedPrices := prices.reverse
    let macdLines := (List.range reversedPrices.length).filterMap (fun i =>
      let currentPriceSubset := reversedPrices.take (i + 1)
      if currentPriceSubset.length ≥ longPeriod then
        some (calculateEMA currentPriceSubset shortPeriod -
              calculateEMA currentPriceSubset longPeriod)
      else none)
    if macdLines.length < signalPeriod then none
    else
      let signalLine := calculateEMA macdLines signalPeriod
      let lastMacdLine := (macdLines.getLast?).getD 0
      some ⟨lastMacdLine, signalLine, lastMacdLine - signalLine⟩

end IndicatorCalculator

open IndicatorCalculator

/-- `StrategyWeights` (src/types.ts): every weight optional. -/
structure StrategyWeights where
  emaGoldenCross : Option ℚ := none
  bollingerBreakout : Option ℚ := none
  volumeSpike : Option ℚ := none
  rsiOversold : Option ℚ := none
  rsiNeutral : Option ℚ := none
  buyMacdGoldenCross : Option ℚ := none
  buyMacdHistogramPositive : Option ℚ := none
  buySynergy : Option ℚ := none
  rsiOverboughtSell : Option ℚ := none
  emaDeadCrossSell : Option ℚ := none
  sellMacdDeadCross : Option ℚ := none
  sellMacdHistogramNegative : Option ℚ := none
  sellSynergyRsiEma : Option ℚ := none
  sellSynergyEmaBbMiddle : Option ℚ := none
  profitTargetWeight : Option ℚ := none
  pyramidingSignalBoost : Option ℚ := none

/-- `pyramidingRsiCondition` sub-object of `StrategyConfig`. -/
structure PyramidingRsiCondition where
  below : Option ℚ := none
  above : Option ℚ := none

/-- `StrategyConfig` (src/types.ts): all fields optional; unused presentational
fields are omitted. -/
structure StrategyConfig where
  bollingerPeriod : Option ℕ := none
  bollingerStdDev : Option ℚ := none
  emaShortPeriod : Option ℕ := none
  emaMidPeriod : Option ℕ := none
  emaLongPeriod : Option ℕ := none
  rsiPeriod : Option ℕ := none
  rsiOverboughtThreshold : Option ℚ := none
  rsiOversoldThreshold : Option ℚ := none
  volumeSpikeMultiplier : Option ℚ := none
  buyScoreThresholdShortTerm : Option ℚ := none
  stopLossPercentShortTerm : Option ℚ := none
  profitTargetPercentShortTerm : Option ℚ := none
  sellScoreThresholdShortTerm : Option ℚ := none
  macdShortPeriod : Option ℕ := none
  macdLongPeriod : Option ℕ := none
  macdSignalPeriod : Option ℕ := none
  allowPyramiding : Option Bool := none
  maxPyramidingCount : Option ℕ := none
  pyramidingConditionDropPercent : Option ℚ := none
  pyramidingOrderSizeRatio : Option ℚ := none
  pyramidingRsiCondition : Option PyramidingRsiCondition := none
  weights : Option StrategyWeights := none

/-- `config.trading.defaultStrategyConfig.weights` (src/config.ts:89-103). -/
def defaultConfigWeights : StrategyWeights :=
  { emaGoldenCross := some 30
    bollingerBreakout := some 30
    volumeSpike := some 25
    rsiOversold := some 20
    rsiNeutral := some 10
    buySynergy := some 15
    rsiOverboughtSell := some 60
    emaDeadCrossSell := some 50
    sellSynergyRsiEma := some 85
    sellSynergyEmaBbMiddle := some 80 }

/-- `config.trading.defaultStrategyConfig` (src/config.ts:69-104); fields the
decision engine reads. -/
def defaultStrategyConfig : StrategyConfig :=
  { bollingerPeriod := some 20
    bollingerStdDev := some 2
    emaShortPeriod := some 5
    emaMidPeriod := some 10
    emaLongPeriod := some 20
    rsiPeriod := some 14
    rsiOverboughtThreshold := some 70
    rsiOversoldThreshold := some 30
    volumeSpikeMultiplier := some 2
    buyScoreThresholdShortTerm := some 80
    stopLossPercentShortTerm := some (3/2)
    profitTargetPercentShortTerm := some 3
    sellScoreThresholdShortTerm := some 65
    weights := some defaultConfigWeights }

/-- Spread-merge of two weight objects: fields of `override` win when present. -/
def mergeWeights (base override : StrategyWeights) : StrategyWeights :=
  { emaGoldenCross := override.emaGoldenCross <|> base.emaGoldenCross
    bollingerBreakout := override.bollingerBreakout <|> base.bollingerBreakout
    volumeSpike := override.volumeSpike <|> base.volumeSpike
    rsiOversold := override.rsiOversold <|> base.rsiOversold
    rsiNeutral := override.rsiNeutral <|> base.rsiNeutral
    buyMacdGoldenCross := override.buyMacdGoldenCross <|> base.buyMacdGoldenCross
    buyMacdHistogramPositive :=
      override.buyMacdHistogramPositive <|> base.buyMacdHistogramPositive
    buySynergy := override.buySynergy <|> base.buySynergy
    rsiOverboughtSell := override.rsiOverboughtSell <|> base.rsiOverboughtSell
    emaDeadCrossSell := override.emaDeadCrossSell <|> base.emaDeadCrossSell
    sellMacdDeadCross := override.sellMacdDeadCross <|> base.sellMacdDeadCross
    sellMacdHistogramNegative :=
      override.sellMacdHistogramNegative <|> base.sellMacdHistogramNegative
    sellSynergyRsiEma := override.sellSynergyRsiEma <|> base.sellSynergyRsiEma
    sellSynergyEmaBbMiddle :=
      override.sellSynergyEmaBbMiddle <|> base.sellSynergyEmaBbMiddle
    profitTargetWeight := override.profitTargetWeight <|> base.profitTargetWeight
    pyramidingSignalBoost :=
      override.pyramidingSignalBoost <|> base.pyramidingSignalBoost }

/-- The config merge at the top of `SignalGenerator.generateSignal`
(signal-generator.ts:30-42): defaults spread first, then the caller input, with
`weights` and `pyramidingRsiCondition` merged per-key. -/
def mergeStrategyConfigSG (input : StrategyConfig) : StrategyConfig :=
  { bollingerPeriod := input.bollingerPeriod <|> defaultStrategyConfig.bollingerPeriod
    bollingerStdDev := input.bollingerStdDev <|> defaultStrategyConfig.bollingerStdDev
    emaShortPeriod := input.emaShortPeriod <|> defaultStrategyConfig.emaShortPeriod
    emaMidPeriod := input.emaMidPeriod <|> defaultStrategyConfig.emaMidPeriod
    emaLongPeriod := input.emaLongPeriod <|> defaultStrategyConfig.emaLongPeriod
    rsiPeriod := input.rsiPeriod <|> defaultStrategyConfig.rsiPeriod
    rsiOverboughtThreshold :=
      input.rsiOverboughtThreshold <|> defaultStrategyConfig.rsiOverboughtThreshold
    rsiOversoldThreshold :=
      input.rsiOversoldThreshold <|> defaultStrategyConfig.rsiOversoldThreshold
    volumeSpikeMultiplier :=
      input.volumeSpikeMultiplier <|> defaultStrategyConfig.volumeSpikeMultiplier
    buyScoreThresholdShortTerm :=
      input.buyScoreThresholdShortTerm <|> defaultStrategyConfig.buyScoreThresholdShortTerm
    stopLossPercentShortTerm :=
      input.stopLossPercentShortTerm <|> defaultStrategyConfig.stopLossPercentShortTerm
    profitTargetPercentShortTerm :=
      input.profitTargetPercentShortTerm <|> defaultStrategyConfig.profitTargetPercentShortTerm
    sellScoreThresholdShortTerm :=
      input.sellScoreThresholdShortTerm <|> defaultStrategyConfig.sellScoreThresholdShortTerm
    macdShortPeriod := input.macdShortPeriod <|> defaultStrategyConfig.macdShortPeriod
    macdLongPeriod := input.macdLongPeriod <|> defaultStrategyConfig.macdLongPeriod
    macdSignalPeriod := input.macdSignalPeriod <|> defaultStrategyConfig.macdSignalPeriod
    allowPyramiding := input.allowPyramiding <|> defaultStrategyConfig.allowPyramiding
    maxPyramidingCount :=
      input.maxPyramidingCount <|> defaultStrategyConfig.maxPyramidingCount
    pyramidingConditionDropPercent :=
      input.pyramidingConditionDropPercent <|> defaultStrategyConfig.pyramidingConditionDropPercent
    pyramidingOrderSizeRatio :=
      input.pyramidingOrderSizeRatio <|> defaultStrategyConfig.pyramidingOrderSizeRatio
    pyramidingRsiCondition := some (input.pyramidingRsiCondition.getD {})
    weights := some (mergeWeights defaultConfigWeights (input.weights.getD {})) }

/-- The config merge of the `generateSignal` variant appended in
data-manager.ts (lines 194-201): same as `mergeStrategyConfigSG` but without
the explicit `pyramidingRsiCondition` entry. -/
def mergeStrategyConfigDM (input : StrategyConfig) : StrategyConfig :=
  { mergeStrategyConfigSG input with
    pyramidingRsiCondition := input.pyramidingRsiCondition }

/-- `Position` (src/types.ts:76-82). -/
structure Position where
  market : String
  entryPrice : ℚ
  volume : ℚ
  pyramidingCount : Option ℕ := none

inductive TradeAction
  | buy
  | sell
  | hold
  deriving DecidableEq

/-- Tags for the distinct reason strings `generateSignal` can produce. -/
inductive SigReason
  /-- "데이터 부족" — insufficient history. -/
  | dataShortage
  /-- "[단기 손절] ..." — short-term stop-loss sell. -/
  | stopLossShortTerm
  /-- "[단기 익절] ..." — short-term take-profit sell. -/
  | takeProfitShortTerm
  /-- "[지표 매도] ..." — indicator-driven sell (data-manager variant). -/
  | indicatorSell
  /-- "보유 중 ..., 매도 신호 약함 ..." — holding, weak sell pressure. -/
  | holdingWeakSell
  /-- "[단기 신규매수] ..." / "[단기 매수] ..." — new-entry buy. -/
  | newBuyShortTerm
  /-- "신규매수 대기 ..." / "매수 대기 ..." — awaiting a buy signal. -/
  | awaitingBuy
  /-- "[분할매수 n차] ..." — pyramiding (incremental) buy, stage `n`. -/
  | pyramiding (stage : ℕ)
  deriving DecidableEq

/-- `StrategyResult` (src/types.ts:66-73). -/
structure StrategyResult where
  action : TradeAction
  market : String
  reason : SigReason
  price : Option ℚ := none
  volume : Option ℚ := none
  score : ℚ

/-- Tags for the reason strings pushed by the score calculators. -/
inductive ScoreReason
  | emaGoldenCrossR
  | emaShortOverMidR
  | emaShortOverLongR
  | bollingerBreakoutR
  | bollingerApproachUpperR
  | bollingerBelowLowerR
  | bollingerNearLowerR
  | bollingerApproachingLowerR
  | volumeSpikeR
  | volumeIncreaseR
  | rsiOversoldR
  | rsiLowR
  | rsiNeutralR
  | rsiOkR
  | macdGoldenCrossR
  | macdUptrendR
  | macdReboundR
  | macdSlowdownR
  | macdHistogramPositiveR
  | buySynergyR
  | synergyTrendPullbackR
  | synergyReboundR
  | synergyTrendShiftR
  | synergyPartialR
  | rsiOverboughtR
  | rsiApproachOverboughtR
  | emaDeadCrossR
  | emaDeadCrossSoonR
  | emaSlowdownR
  | bollingerOverextendedR
  | bollingerUpperSellR
  | bollingerApproachUpperSellR
  | macdDeadCrossR
  | macdHistogramFallingR
  | macdLineFallingR
  | macdHistogramNegativeR
  | highProfitR
  | profitTargetReachedR
  | profitTargetApproachR
  | highProfitSupportR
  | sellSynergyRsiEmaR
  | sellSynergyEmaBbR
  | sellSynergyRsiBbR
  | sellSynergyMacdEmaR
  | sellSynergyProfitR
  | sellSynergyPartialR
  | sellSynergyRsiMacdR
  deriving DecidableEq

/-- `ScoreOutput` (score-calculator.ts:5-8). -/
structure ScoreOutput where
  score : ℚ
  reasons : List ScoreReason

namespace ScoreCalculator

/-- `ScoreCalculator.calculateBuyScore` (src/core/score-calculator.ts:32-119):
additive weighted sum of fired conditions, not clamped and not rounded. -/
def calculateBuyScore (currentPrice : ℚ) (bollingerBands : BollingerBands)
    (emaShort emaMid emaLong rsi currentVolume avgVolume : ℚ)
    (strategyCfg : StrategyConfig) (macdResult : Option MACDResult) : ScoreOutput :=
  let weights := strategyCfg.weights.getD {}
  let isEmaGoldenCross := emaShort > emaMid ∧ emaMid > emaLong
  let isBollingerUpperBreakout := currentPrice > bollingerBands.upper
  let volumeSpikeMultiplier := jsOr strategyCfg.volumeSpikeMultiplier 2
  let isVolumeSpike := currentVolume > avgVolume * volumeSpikeMultiplier
  let rsiOversoldThreshold := jsOr strategyCfg.rsiOversoldThreshold 30
  let rsiOverboughtThreshold := jsOr strategyCfg.rsiOverboughtThreshold 70
  let s1 : ℚ := if isEmaGoldenCross then jsOr weights.emaGoldenCross 30 else 0
  let r1 : List ScoreReason :=
    if isEmaGoldenCross then [.emaGoldenCrossR] else []
  let s2 := s1 + (if isBollingerUpperBreakout then jsOr weights.bollingerBreakout 30 else 0)
  let r2 := r1 ++ (if isBollingerUpperBreakout then [.bollingerBreakoutR] else [])
  let s3 := s2 + (if isVolumeSpike then jsOr weights.volumeSpike 25 else 0)
  let r3 := r2 ++ (if isVolumeSpike then [.volumeSpikeR] else [])
  let s4 := s3 +
    (if rsi < rsiOversoldThreshold then jsOr weights.rsiOversold 20
     else if rsi < rsiOverboughtThreshold - 10 then jsOr weights.rsiNeutral 10
     else 0)
  let r4 := r3 ++
    (if rsi < rsiOversoldThreshold then [.rsiOversoldR]
     else if rsi < rsiOverboughtThreshold - 10 then [.rsiOkR]
     else [])
  let s5 := s4 +
    (if isEmaGoldenCross ∧ isBollingerUpperBreakout ∧ isVolumeSpike then
      jsOr weights.buySynergy 15 else 0)
  let r5 := r4 ++
    (if isEmaGoldenCross ∧ isBollingerUpperBreakout ∧ isVolumeSpike then
      [.buySynergyR] else [])
  match macdResult with
  | none => ⟨s5, r5⟩
  | some m =>
    let s6 := s5 + (if m.macdLine > m.signalLine then jsOr weights.buyMacdGoldenCross 0 else 0)
    let r6 := r5 ++ (if m.macdLine > m.signalLine then [.macdGoldenCrossR] else [])
    let s7 := s6 + (if m.histogram > 0 then jsOr weights.buyMacdHistogramPositive 0 else 0)
    let r7 := r6 ++ (if m.histogram > 0 then [.macdHistogramPositiveR] else [])
    ⟨s7, r7⟩

/-- `ScoreCalculator.calculateSellPressureScore`
(src/core/score-calculator.ts:126-223): a max-combine of fired conditions plus
small additive bonuses, not clamped and not rounded. -/
def calculateSellPressureScore (currentPrice : ℚ) (bollingerBands : BollingerBands)
    (emaShort emaMid rsi : ℚ) (strategyCfg : StrategyConfig)
    (currentProfitRate : Option ℚ) (macdResult : Option MACDResult) : ScoreOutput :=
  let weights := strategyCfg.weights.getD {}
  let rsiOverboughtThreshold := jsOr strategyCfg.rsiOverboughtThreshold 70
  let isEmaDeadCross := emaShort < emaMid
  let s1 : ℚ := if rsi > rsiOverboughtThreshold then jsOr weights.rsiOverboughtSell 60 else 0
  let r1 : List ScoreReason :=
    if rsi > rsiOverboughtThreshold then [.rsiOverboughtR] else []
  let s2 := if isEmaDeadCross then max s1 (jsOr weights.emaDeadCrossSell 50) else s1
  let r2 := r1 ++ (if isEmaDeadCross then [.emaDeadCrossR] else [])
  let s3 :=
    if rsi > rsiOverboughtThreshold ∧ isEmaDeadCross then
      max s2 (jsOr weights.sellSynergyRsiEma 85)
    else s2
  let r3 := r2 ++
    (if rsi > rsiOverboughtThreshold ∧ isEmaDeadCross then
      (if ScoreReason.sellSynergyRsiEmaR ∈ r2 then [] else [.sellSynergyRsiEmaR])
     else [])
  let s4 :=
    if isEmaDeadCross ∧ currentPrice < bollingerBands.middle then
      let tempScore := jsOr weights.sellSynergyEmaBbMiddle 80
      let tempScore := if rsi > rsiOverboughtThreshold then tempScore + 10 else tempScore
      max s3 tempScore
    else s3
  let r4 := r3 ++
    (if isEmaDeadCross ∧ currentPrice < bollingerBands.middle then
      (if ScoreReason.sellSynergyEmaBbR ∈ r3 then [] else [.sellSynergyEmaBbR])
     else [])
  let profitCondition : Bool :=
    match currentProfitRate with
    | some rate =>
      decide (rate > jsOr strategyCfg.profitTargetPercentShortTerm 3 ∧ s4 > 70)
    | none => false
  let s5 := if profitCondition then s4 + 5 else s4
  let r5 := r4 ++ (if profitCondition then [.highProfitSupportR] else [])
  match macdResult with
  | none => ⟨s5, r5⟩
  | some m =>
    let s6 := if m.macdLine < m.signalLine then max s5 (jsOr weights.sellMacdDeadCross 0) else s5
    let r6 := r5 ++ (if m.macdLine < m.signalLine then [.macdDeadCrossR] else [])
    let s7 := if m.histogram < 0 then max s6 (jsOr weights.sellMacdHistogramNegative 0) else s6
    let r7 := r6 ++ (if m.histogram < 0 then [.macdHistogramNegativeR] else [])
    let s8 :=
      if rsi > rsiOverboughtThreshold ∧ m.macdLine < m.signalLine then
        max s7 (jsOr weights.sellSynergyRsiEma 0 + 10)
      else s7
    let r8 := r7 ++
      (if rsi > rsiOverboughtThreshold ∧ m.macdLine < m.signalLine then
        (if ScoreReason.sellSynergyRsiMacdR ∈ r7 then [] else [.sellSynergyRsiMacdR])
       else [])
    ⟨s8, r8⟩

end ScoreCalculator

/-- Keys of the `indicatorScores` dictionaries of the tiered score calculator. -/
inductive ScoreKey
  | emaGoldenCrossK
  | bollingerBreakoutK
  | volumeSpikeK
  | rsiConditionK
  | macdConditionK
  | synergyEffectK
  | rsiOverboughtK
  | emaDeadCrossK
  | bollingerBandK
  | profitTargetK
  deriving DecidableEq

/-- `ScoreOutput` of the tiered score calculator variant (the `ScoreCalculator`
bundled after the separator in signal-generator.ts), which carries per-indicator
sub-scores. -/
structure TieredScoreOutput where
  score : ℚ
  reasons : List ScoreReason
  indicatorScores : List (ScoreKey × ℚ)

namespace ScoreCalculatorTiered

/-- `calculateBuyScore` of the tiered `ScoreCalculator` variant bundled with
signal-generator.ts: six sub-scores combined by configured weights, the total
clamped to [0,100] and rounded. -/
def calculateBuyScore (currentPrice : ℚ) (bollingerBands : BollingerBands)
    (emaShort emaMid emaLong rsi currentVolume avgVolume : ℚ)
    (strategyCfg : StrategyConfig) (macdResult : Option MACDResult) :
    TieredScoreOutput :=
  let weights := strategyCfg.weights.getD {}
  -- 1. EMA alignment sub-score (0-100)
  let emaPerfect := emaShort > emaMid ∧ emaMid > emaLong
  let emaScore : ℚ :=
    if emaPerfect then
      let shortMidGap := (emaShort / emaMid - 1) * 100
      let midLongGap := (emaMid / emaLong - 1) * 100
      let gapBonus := min (max (shortMidGap + midLongGap) 0) 3 * 10
      70 + gapBonus
    else if emaShort > emaMid ∨ emaShort > emaLong then
      30 + (if emaShort > emaMid then 20 else 0) + (if emaShort > emaLong then 10 else 0)
    else 0
  let emaReasons : List ScoreReason :=
    if emaPerfect then [.emaGoldenCrossR]
    else if emaShort > emaMid ∨ emaShort > emaLong then
      (if emaShort > emaMid then [.emaShortOverMidR] else []) ++
      (if emaShort > emaLong then [.emaShortOverLongR] else [])
    else []
  -- 2. Bollinger-band sub-score (0-100)
  let bbMiddle := bollingerBands.middle
  let bbUpper := bollingerBands.upper
  let bbLower := bollingerBands.lower
  let bbScore : ℚ :=
    if currentPrice > bbUpper then
      let breakoutPercent := (currentPrice - bbUpper) / bbUpper * 100
      80 + min (breakoutPercent * 4) 20
    else if currentPrice > bbMiddle then
      let positionRatio := (currentPrice - bbMiddle) / (bbUpper - bbMiddle)
      50 + positionRatio * 30
    else if currentPrice < bbLower then
      let belowPercent := (bbLower - currentPrice) / bbLower * 100
      if belowPercent > 3 then 60 + min (belowPercent * 3) 20
      else 40 + belowPercent * 6
    else if currentPrice < bbMiddle then
      let positionRatio := (bbMiddle - currentPrice) / (bbMiddle - bbLower)
      if positionRatio > 4/5 then 40 + positionRatio * 10
      else 20 + positionRatio * 20
    else 0
  let bbReasons : List ScoreReason :=
    if currentPrice > bbUpper then [.bollingerBreakoutR]
    else if currentPrice > bbMiddle then [.bollingerApproachUpperR]
    else if currentPrice < bbLower then
      (if (bbLower - currentPrice) / bbLower * 100 > 3 then [.bollingerBelowLowerR]
       else [.bollingerNearLowerR])
    else if currentPrice < bbMiddle then
      (if (bbMiddle - currentPrice) / (bbMiddle - bbLower) > 4/5 then
        [.bollingerApproachingLowerR]
       else [])
    else []
  -- 3. Volume sub-score (0-100)
  let volumeRatio := currentVolume / avgVolume
  let volumeSpikeMultiplier := jsOr strategyCfg.volumeSpikeMultiplier 2
  let volumeScore : ℚ :=
    if volumeRatio ≥ volumeSpikeMultiplier then
      80 + min ((volumeRatio - volumeSpikeMultiplier) / volumeSpikeMultiplier * 20) 20
    else if volumeRatio ≥ 13/10 then
      50 + (volumeRatio - 13/10) / (volumeSpikeMultiplier - 13/10) * 30
    else if volumeRatio > 1 then 30 + (volumeRatio - 1) / (3/10) * 20
    else max (30 * volumeRatio) 0
  let volumeReasons : List ScoreReason :=
    if volumeRatio ≥ volumeSpikeMultiplier then [.volumeSpikeR]
    else if volumeRatio ≥ 13/10 then [.volumeIncreaseR]
    else []
  -- 4. RSI sub-score (0-100)
  let rsiOversoldThreshold := jsOr strategyCfg.rsiOversoldThreshold 30
  let rsiOverboughtThreshold := jsOr strategyCfg.rsiOverboughtThreshold 70
  let rsiScore : ℚ :=
    if rsi ≤ rsiOversoldThreshold then 80 + min ((rsiOversoldThreshold - rsi) * 2) 20
    else if rsi ≤ 40 then 60 + (40 - rsi) / (40 - rsiOversoldThreshold) * 20
    else if rsi ≤ 55 then 40 + (55 - rsi) / 15 * 20
    else if rsi < rsiOverboughtThreshold then
      max (40 - (rsi - 55) / (rsiOverboughtThreshold - 55) * 40) 0
    else 0
  let rsiReasons : List ScoreReason :=
    if rsi ≤ rsiOversoldThreshold then [.rsiOversoldR]
    else if rsi ≤ 40 then [.rsiLowR]
    else if rsi ≤ 55 then [.rsiNeutralR]
    else []
  -- 5. MACD sub-score (0-100)
  let macdScore : ℚ :=
    match macdResult with
    | none => 0
    | some m =>
      if m.macdLine > m.signalLine then
        let crossStrength := (m.macdLine - m.signalLine) / |jsOr (some m.signalLine) (1/1000)|
        60 + min (crossStrength * 100) 40
      else if m.macdLine > 0 ∧ m.histogram > 0 then 50 + min (m.histogram * 20) 10
      else if m.histogram > 0 then 50 + min (m.histogram * 10) 10
      else if m.histogram < 0 ∧ m.histogram > m.histogram * (21/20) then
        30 + min (|m.histogram| * 10) 20
      else 0
  let macdReasons : List ScoreReason :=
    match macdResult with
    | none => []
    | some m =>
      if m.macdLine > m.signalLine then [.macdGoldenCrossR]
      else if m.macdLine > 0 ∧ m.histogram > 0 then [.macdUptrendR]
      else if m.histogram > 0 then [.macdReboundR]
      else if m.histogram < 0 ∧ m.histogram > m.histogram * (21/20) then [.macdSlowdownR]
      else []
  -- 6. Synergy sub-score (0-100)
  let overCount :=
    (([emaScore, bbScore, volumeScore, rsiScore, macdScore].filter
      (fun s => decide (s > 60))).length)
  let midCount :=
    (([emaScore, bbScore, volumeScore, rsiScore, macdScore].filter
      (fun s => decide (s > 40))).length)
  let synergyScore : ℚ :=
    if emaScore > 70 ∧ bbScore > 70 ∧ volumeScore > 70 then 100
    else if emaScore > 70 ∧ rsiScore > 70 then 90
    else if currentPrice < bbLower ∧ rsiScore > 80 then 85
    else if macdScore > 60 ∧ volumeScore > 50 then 80
    else if overCount ≥ 2 then 70
    else if midCount ≥ 3 then 50
    else 0
  let synergyReasons : List ScoreReason :=
    if emaScore > 70 ∧ bbScore > 70 ∧ volumeScore > 70 then [.buySynergyR]
    else if emaScore > 70 ∧ rsiScore > 70 then [.synergyTrendPullbackR]
    else if currentPrice < bbLower ∧ rsiScore > 80 then [.synergyReboundR]
    else if macdScore > 60 ∧ volumeScore > 50 then [.synergyTrendShiftR]
    else if overCount ≥ 2 then [.synergyPartialR]
    else []
  let total :=
    emaScore * jsOr weights.emaGoldenCross 20 / 100 +
    bbScore * jsOr weights.bollingerBreakout 15 / 100 +
    volumeScore * jsOr weights.volumeSpike 15 / 100 +
    rsiScore * jsOr weights.rsiOversold 20 / 100 +
    macdScore * jsOr weights.buyMacdGoldenCross 20 / 100 +
    synergyScore * jsOr weights.buySynergy 10 / 100
  let finalScore := max 0 (min 100 total)
  { score := jsRound finalScore
    reasons := emaReasons ++ bbReasons ++ volumeReasons ++ rsiReasons ++
      macdReasons ++ synergyReasons
    indicatorScores :=
      [(.emaGoldenCrossK, emaScore), (.bollingerBreakoutK, bbScore),
       (.volumeSpikeK, volumeScore), (.rsiConditionK, rsiScore),
       (.macdConditionK, macdScore), (.synergyEffectK, synergyScore)] }

/-- `calculateSellPressureScore` of the tiered `ScoreCalculator` variant
bundled with signal-generator.ts: six sub-scores combined by configured
weights, the total clamped to [0,100] and rounded. -/
def calculateSellPressureScore (currentPrice : ℚ) (bollingerBands : BollingerBands)
    (emaShort emaMid rsi : ℚ) (strategyCfg : StrategyConfig)
    (currentProfitRate : Option ℚ) (macdResult : Option MACDResult) :
    TieredScoreOutput :=
  let weights := strategyCfg.weights.getD {}
  let rsiOverboughtThreshold := jsOr strategyCfg.rsiOverboughtThreshold 70
  -- 1. RSI overbought sub-score (0-100)
  let rsiScore : ℚ :=
    if rsi ≥ rsiOverboughtThreshold then 70 + min ((rsi - rsiOverboughtThreshold) * 3) 30
    else if rsi ≥ rsiOverboughtThreshold - 10 then
      40 + (rsi - (rsiOverboughtThreshold - 10)) / 10 * 30
    else if rsi ≥ 50 then (rsi - 50) * 2
    else 0
  let rsiReasons : List ScoreReason :=
    if rsi ≥ rsiOverboughtThreshold then [.rsiOverboughtR]
    else if rsi ≥ rsiOverboughtThreshold - 10 then [.rsiApproachOverboughtR]
    else []
  -- 2. EMA dead-cross sub-score (0-100)
  let emaScore : ℚ :=
    if emaShort < emaMid then
      let crossDepth := (emaMid / emaShort - 1) * 100
      70 + min (crossDepth * 10) 30
    else if emaShort < emaShort * (201/200) then 50
    else if emaShort < emaShort * (101/100) then 30
    else 0
  let emaReasons : List ScoreReason :=
    if emaShort < emaMid then [.emaDeadCrossR]
    else if emaShort < emaShort * (201/200) then [.emaDeadCrossSoonR]
    else if emaShort < emaShort * (101/100) then [.emaSlowdownR]
    else []
  -- 3. Bollinger-band sub-score (0-100)
  let bbMiddle := bollingerBands.middle
  let bbUpper := bollingerBands.upper
  let bbScore : ℚ :=
    if currentPrice > bbUpper * (21/20) then
      let overExtension := (currentPrice / bbUpper - 1) * 100
      80 + min overExtension 20
    else if currentPrice > bbUpper then 60 + (currentPrice - bbUpper) / bbUpper * 100
    else if currentPrice > bbMiddle ∧ currentPrice > bbMiddle * (51/50) then
      40 + (currentPrice - bbMiddle) / (bbUpper - bbMiddle) * 20
    else 0
  let bbReasons : List ScoreReason :=
    if currentPrice > bbUpper * (21/20) then [.bollingerOverextendedR]
    else if currentPrice > bbUpper then [.bollingerUpperSellR]
    else if currentPrice > bbMiddle ∧ currentPrice > bbMiddle * (51/50) then
      [.bollingerApproachUpperSellR]
    else []
  -- 4. MACD sub-score (0-100)
  let macdScore : ℚ :=
    match macdResult with
    | none => 0
    | some m =>
      if m.macdLine < m.signalLine then
        let crossStrength := (m.signalLine - m.macdLine) / |jsOr (some m.signalLine) (1/1000)|
        70 + min (crossStrength * 100) 30
      else if m.histogram < 0 ∧ m.histogram < m.histogram * (19/20) then 50
      else if m.macdLine > 0 ∧ m.macdLine < m.macdLine * (19/20) then 40
      else 0
  let macdReasons : List ScoreReason :=
    match macdResult with
    | none => []
    | some m =>
      if m.macdLine < m.signalLine then [.macdDeadCrossR]
      else if m.histogram < 0 ∧ m.histogram < m.histogram * (19/20) then
        [.macdHistogramFallingR]
      else if m.macdLine > 0 ∧ m.macdLine < m.macdLine * (19/20) then [.macdLineFallingR]
      else []
  -- 5. Profit-rate sub-score (0-100)
  let profitTargetPercent := jsOr strategyCfg.profitTargetPercentShortTerm 3
  let profitScore : ℚ :=
    match currentProfitRate with
    | none => 0
    | some rate =>
      if rate ≥ profitTargetPercent * (3/2) then 90
      else if rate ≥ profitTargetPercent then 70
      else if rate ≥ profitTargetPercent * (7/10) then 50
      else 0
  let profitReasons : List ScoreReason :=
    match currentProfitRate with
    | none => []
    | some rate =>
      if rate ≥ profitTargetPercent * (3/2) then [.highProfitR]
      else if rate ≥ profitTargetPercent then [.profitTargetReachedR]
      else if rate ≥ profitTargetPercent * (7/10) then [.profitTargetApproachR]
      else []
  -- 6. Synergy sub-score (0-100)
  let overCount :=
    (([rsiScore, emaScore, bbScore, macdScore].filter
      (fun s => decide (s > 60))).length)
  let synergyScore : ℚ :=
    if rsiScore > 70 ∧ emaScore > 70 then 100
    else if rsiScore > 70 ∧ bbScore > 80 then 90
    else if macdScore > 70 ∧ emaScore > 70 then 85
    else if profitScore > 70 ∧ (rsiScore > 60 ∨ emaScore > 60 ∨ macdScore > 60) then 80
    else if overCount ≥ 2 then 70
    else 0
  let synergyReasons : List ScoreReason :=
    if rsiScore > 70 ∧ emaScore > 70 then [.sellSynergyRsiEmaR]
    else if rsiScore > 70 ∧ bbScore > 80 then [.sellSynergyRsiBbR]
    else if macdScore > 70 ∧ emaScore > 70 then [.sellSynergyMacdEmaR]
    else if profitScore > 70 ∧ (rsiScore > 60 ∨ emaScore > 60 ∨ macdScore > 60) then
      [.sellSynergyProfitR]
    else if overCount ≥ 2 then [.sellSynergyPartialR]
    else []
  let total :=
    rsiScore * jsOr weights.rsiOverboughtSell 25 / 100 +
    emaScore * jsOr weights.emaDeadCrossSell 20 / 100 +
    bbScore * jsOr weights.bollingerBreakout 15 / 100 +
    macdScore * jsOr weights.sellMacdDeadCross 20 / 100 +
    profitScore * jsOr weights.profitTargetWeight 10 / 100 +
    synergyScore * jsOr weights.sellSynergyRsiEma 10 / 100
  let finalScore := max 0 (min 100 total)
  { score := jsRound finalScore
    reasons := rsiReasons ++ emaReasons ++ bbReasons ++ macdReasons ++
      profitReasons ++ synergyReasons
    indicatorScores :=
      [(.rsiOverboughtK, rsiScore), (.emaDeadCrossK, emaScore),
       (.bollingerBandK, bbScore), (.macdConditionK, macdScore),
       (.profitTargetK, profitScore), (.synergyEffectK, synergyScore)] }

end ScoreCalculatorTiered

namespace SignalGenerator

/-- `SignalGenerator.handlePyramidingSignal` (signal-generator.ts:214-382):
composite pyramiding score from price-drop depth, RSI depth, MACD state and a
per-increment context bonus; fires when it clears `buyScoreThresholdShortTerm
* 0.6`.  The trailing `baseScore` parameter is unused, as in the source. -/
def handlePyramidingSignal (market : String) (currentPrice rsi : ℚ)
    (macdResult : Option MACDResult) (currentPosition : Position)
    (strategyCfg : StrategyConfig) (buyScoreThresholdShortTerm : ℚ)
    (baseScore : ℚ) : Option StrategyResult :=
  let _ := baseScore
  let maxPyramidingCount := strategyCfg.maxPyramidingCount.getD 2
  let pyramidingConditionDropPercent := strategyCfg.pyramidingConditionDropPercent.getD 5
  let pyramidingRsiCondition := strategyCfg.pyramidingRsiCondition.getD ⟨some 40, none⟩
  let currentPyramidingCount := jsOrN currentPosition.pyramidingCount 0
  if currentPyramidingCount ≥ maxPyramidingCount then none
  else
    -- 1. price-drop score (0-30)
    let dropPercent :=
      if currentPyramidingCount = 0 then pyramidingConditionDropPercent
      else pyramidingConditionDropPercent * (3/2)
    let priceRatio := currentPrice / currentPosition.entryPrice
    let expectedRatio := 1 - dropPercent / 100
    let priceDropScore : ℚ :=
      if priceRatio ≤ expectedRatio then
        let extraDropPercent := (expectedRatio - priceRatio) * 100
        let pds := 20 + min (extraDropPercent * 2) 10
        if (1 - priceRatio) * 100 > 15 then max 10 (pds - 10) else pds
      else
        let progressToTarget := 1 - (priceRatio - expectedRatio) / (1 - expectedRatio)
        max 0 (min 20 (progressToTarget * 20))
    -- 2. RSI score (0-30)
    let rsiBelow := jsOr pyramidingRsiCondition.below 40
    let rsiAbove := pyramidingRsiCondition.above
    let aboveTruthy : Bool :=
      match rsiAbove with
      | some a => decide (a ≠ 0)
      | none => false
    let aboveViolated : Bool :=
      match rsiAbove with
      | some a => decide (a ≠ 0) && decide (rsi ≤ a)
      | none => false
    let pyramidingRsiMet : Bool :=
      !(decide (rsiBelow ≠ 0) && decide (rsi ≥ rsiBelow)) && !aboveViolated
    let rsiScore : ℚ :=
      if pyramidingRsiMet then
        let fromBelow : ℚ :=
          if rsiBelow ≠ 0 then
            if rsi ≤ rsiBelow * (7/10) then 30
            else if rsi ≤ rsiBelow * (4/5) then 25
            else if rsi ≤ rsiBelow * (9/10) then 20
            else 15
          else 0
        if aboveTruthy ∧ rsiBelow = 0 then 15 else fromBelow
      else 0
    -- 3. MACD score (0-20)
    let macdScore : ℚ :=
      match macdResult with
      | none => 0
      | some m =>
        let ms : ℚ :=
          if m.histogram > 0 then 15
          else if m.histogram > -(1/2) then 10
          else if m.histogram > m.histogram * (9/10) then 5
          else 0
        if m.macdLine < 0 ∧ m.macdLine < m.macdLine * (21/20) ∧
            m.signalLine < m.signalLine * (21/20) then
          max 0 (ms - 5)
        else ms
    -- 4. market-context score (0-20)
    let marketContextScore : ℚ :=
      (if currentPyramidingCount = 0 then 10 else 5) +
      jsOr (strategyCfg.weights.getD {}).pyramidingSignalBoost 0
    let finalPyramidingScore :=
      min 100 (priceDropScore + rsiScore + macdScore + marketContextScore)
    let thresholdScore := buyScoreThresholdShortTerm * (3/5)
    if finalPyramidingScore ≥ thresholdScore then
      some ⟨.buy, market, .pyramiding (currentPyramidingCount + 1),
        some currentPrice, none, finalPyramidingScore⟩
    else none

/-- The new-buy evaluation block at the tail of `generateSignal`
(signal-generator.ts:168-199), reached whenever no sell/pyramiding branch
returned: new-entry buy when the buy score clears the threshold, else hold. -/
def buyEvaluation (market : String) (currentPrice : ℚ)
    (bollingerBands : BollingerBands) (emaShort emaMid emaLong rsi : ℚ)
    (currentVolume avgVolume : ℚ) (strategyCfg : StrategyConfig)
    (macdResult : Option MACDResult) (buyScoreThresholdShortTerm : ℚ) :
    StrategyResult :=
  let buySignal := ScoreCalculator.calculateBuyScore currentPrice bollingerBands
    emaShort emaMid emaLong rsi currentVolume avgVolume strategyCfg macdResult
  if buySignal.score ≥ buyScoreThresholdShortTerm then
    ⟨.buy, market, .newBuyShortTerm, some currentPrice, none, buySignal.score⟩
  else
    ⟨.hold, market, .awaitingBuy, none, none,
      if buySignal.score > 0 then buySignal.score else 0⟩

/-- `SignalGenerator.generateSignal` (src/core/signal-generator.ts:23-200), the
variant used by the replay pipeline: insufficient-history hold, then (position
held) stop-loss — with a pyramiding attempt that can pre-empt the stop-loss
sell when `allowPyramiding` is set — then take-profit, then the new-buy
evaluation.  The stop-loss / take-profit sells carry no explicit volume. -/
def generateSignal (market : String) (closePrices volumes : List ℚ)
    (currentPosition : Option Position) (strategyCfgInput : StrategyConfig) :
    StrategyResult :=
  let strategyCfg := mergeStrategyConfigSG strategyCfgInput
  let bollingerPeriod := strategyCfg.bollingerPeriod.getD 20
  let bollingerStdDev := (strategyCfg.bollingerStdDev.getD 2 : ℚ)
  let emaShortPeriod := strategyCfg.emaShortPeriod.getD 5
  let emaMidPeriod := strategyCfg.emaMidPeriod.getD 10
  let emaLongPeriod := strategyCfg.emaLongPeriod.getD 20
  let rsiPeriod := strategyCfg.rsiPeriod.getD 14
  let buyScoreThresholdShortTerm := (strategyCfg.buyScoreThresholdShortTerm.getD 80 : ℚ)
  let stopLossPercentShortTerm := (strategyCfg.stopLossPercentShortTerm.getD (3/2) : ℚ)
  let profitTargetPercentShortTerm := (strategyCfg.profitTargetPercentShortTerm.getD 3 : ℚ)
  let macdShortPeriod := strategyCfg.macdShortPeriod.getD 12
  let macdLongPeriod := strategyCfg.macdLongPeriod.getD 26
  let macdSignalPeriod := strategyCfg.macdSignalPeriod.getD 9
  let allowPyramiding := strategyCfg.allowPyramiding.getD false
  if closePrices.length < max bollingerPeriod (max emaLongPeriod (rsiPeriod + 1)) then
    ⟨.hold, market, .dataShortage, none, none, 0⟩
  else
    let currentPrice := closePrices.headD 0
    let bollingerBands := calculateBollingerBands closePrices bollingerPeriod bollingerStdDev
    let reversedPrices := closePrices.reverse
    let emaShort := calculateEMA reversedPrices emaShortPeriod
    let emaMid := calculateEMA reversedPrices emaMidPeriod
    let emaLong := calculateEMA reversedPrices emaLongPeriod
    let rsi := calculateRSI closePrices rsiPeriod
    let currentVolume := volumes.headD 0
    let avgVolume := ((volumes.drop 1).take bollingerPeriod).sum / (bollingerPeriod : ℚ)
    let macdResult := calculateMACD closePrices macdShortPeriod macdLongPeriod macdSignalPeriod
    let proceedBuy : Unit → StrategyResult := fun _ =>
      buyEvaluation market currentPrice bollingerBands emaShort emaMid emaLong rsi
        currentVolume avgVolume strategyCfg macdResult buyScoreThresholdShortTerm
    match currentPosition with
    | some pos =>
      if pos.volume > 0 then
        let entryPrice := pos.entryPrice
        let stopLossPrice := entryPrice * (1 - stopLossPercentShortTerm / 100)
        if currentPrice ≤ stopLossPrice then
          let pyramidingSignal :=
            if allowPyramiding then
              handlePyramidingSignal market currentPrice rsi macdResult pos strategyCfg
                buyScoreThresholdShortTerm 0
            else none
          match pyramidingSignal with
          | some sig => sig
          | none => ⟨.sell, market, .stopLossShortTerm, some currentPrice, none, 100⟩
        else
          let profitTargetPrice := entryPrice * (1 + profitTargetPercentShortTerm / 100)
          if currentPrice ≥ profitTargetPrice then
            ⟨.sell, market, .takeProfitShortTerm, some currentPrice, none, 95⟩
          else proceedBuy ()
      else proceedBuy ()
    | none => proceedBuy ()

end SignalGenerator

namespace DataManagerVariant

/-- The `SignalGenerator.generateSignal` variant appended in
src/core/data-manager.ts (lines 186-370): same stop-loss / take-profit
priority (without any pyramiding attempt), then the indicator-driven sell
branch, and the new-buy evaluation only when no position is held.  Sells carry
the full position volume; MACD is not computed in this variant. -/
def generateSignal (market : String) (closePrices volumes : List ℚ)
    (currentPosition : Option Position) (strategyCfgInput : StrategyConfig) :
    StrategyResult :=
  let strategyCfg := mergeStrategyConfigDM strategyCfgInput
  let bollingerPeriod := strategyCfg.bollingerPeriod.getD 20
  let bollingerStdDev := (strategyCfg.bollingerStdDev.getD 2 : ℚ)
  let emaShortPeriod := strategyCfg.emaShortPeriod.getD 5
  let emaMidPeriod := strategyCfg.emaMidPeriod.getD 10
  let emaLongPeriod := strategyCfg.emaLongPeriod.getD 20
  let rsiPeriod := strategyCfg.rsiPeriod.getD 14
  let buyScoreThresholdShortTerm := (strategyCfg.buyScoreThresholdShortTerm.getD 80 : ℚ)
  let stopLossPercentShortTerm := (strategyCfg.stopLossPercentShortTerm.getD (3/2) : ℚ)
  let profitTargetPercentShortTerm := (strategyCfg.profitTargetPercentShortTerm.getD 3 : ℚ)
  let sellScoreThresholdShortTerm := (strategyCfg.sellScoreThresholdShortTerm.getD 75 : ℚ)
  if closePrices.length < max bollingerPeriod (max emaLongPeriod (rsiPeriod + 1)) then
    ⟨.hold, market, .dataShortage, none, none, 0⟩
  else
    let currentPrice := closePrices.headD 0
    let bollingerBands := calculateBollingerBands closePrices bollingerPeriod bollingerStdDev
    let reversedPrices := closePrices.reverse
    let emaShort := calculateEMA reversedPrices emaShortPeriod
    let emaMid := calculateEMA reversedPrices emaMidPeriod
    let emaLong := calculateEMA reversedPrices emaLongPeriod
    let rsi := calculateRSI closePrices rsiPeriod
    let currentVolume := volumes.headD 0
    let avgVolume := ((volumes.drop 1).take bollingerPeriod).sum / (bollingerPeriod : ℚ)
    match currentPosition with
    | some pos =>
      if pos.volume > 0 then
        let entryPrice := pos.entryPrice
        let currentProfitRate := (currentPrice / entryPrice - 1) * 100
        let stopLossPrice := entryPrice * (1 - stopLossPercentShortTerm / 100)
        if currentPrice ≤ stopLossPrice then
          ⟨.sell, market, .stopLossShortTerm, some currentPrice, some pos.volume, 100⟩
        else
          let profitTargetPrice := entryPrice * (1 + profitTargetPercentShortTerm / 100)
          if currentPrice ≥ profitTargetPrice then
            ⟨.sell, market, .takeProfitShortTerm, some currentPrice, some pos.volume, 95⟩
          else
            let sellPressure := ScoreCalculator.calculateSellPressureScore currentPrice
              bollingerBands emaShort emaMid rsi strategyCfg (some currentProfitRate) none
            if sellPressure.score ≥ sellScoreThresholdShortTerm then
              ⟨.sell, market, .indicatorSell, some currentPrice, some pos.volume,
                sellPressure.score⟩
            else
              ⟨.hold, market, .holdingWeakSell, none, none,
                max 0 (if sellPressure.score > 0 then sellPressure.score else 30)⟩
      else
        let buySignal := ScoreCalculator.calculateBuyScore currentPrice bollingerBands
          emaShort emaMid emaLong rsi currentVolume avgVolume strategyCfg none
        if buySignal.score ≥ buyScoreThresholdShortTerm then
          ⟨.buy, market, .newBuyShortTerm, some currentPrice, none, buySignal.score⟩
        else
          ⟨.hold, market, .awaitingBuy, none, none,
            if buySignal.score > 0 then buySignal.score else 0⟩
    | none =>
      let buySignal := ScoreCalculator.calculateBuyScore currentPrice bollingerBands
        emaShort emaMid emaLong rsi currentVolume avgVolume strategyCfg none
      if buySignal.score ≥ buyScoreThresholdShortTerm then
        ⟨.buy, market, .newBuyShortTerm, some currentPrice, none, buySignal.score⟩
      else
        ⟨.hold, market, .awaitingBuy, none, none,
          if buySignal.score > 0 then buySignal.score else 0⟩

end DataManagerVariant

section SanityChecks

example :
    (SignalGenerator.generateSignal "KRW-BTC" [90, 90] [1, 1]
      (some ⟨"KRW-BTC", 100, 1, none⟩)
      { bollingerPeriod := some 2, emaLongPeriod := some 2, rsiPeriod := some 1,
        allowPyramiding := some true,
        weights := some { pyramidingSignalBoost := some 20 } }).action =
    TradeAction.buy := by
  norm_num [SignalGenerator.generateSignal, SignalGenerator.handlePyramidingSignal,
    mergeStrategyConfigSG, defaultStrategyConfig, defaultConfigWeights, mergeWeights,
    IndicatorCalculator.calculateRSI, IndicatorCalculator.calculateMACD, jsOr, jsOrN]

example :
    SignalGenerator.generateSignal "KRW-BTC" [90, 90] [1, 1]
      (some ⟨"KRW-BTC", 100, 1, none⟩)
      { bollingerPeriod := some 2, emaLongPeriod := some 2, rsiPeriod := some 1 } =
    ⟨.sell, "KRW-BTC", .stopLossShortTerm, some 90, none, 100⟩ := by
  norm_num [SignalGenerator.generateSignal, mergeStrategyConfigSG,
    defaultStrategyConfig, defaultConfigWeights, mergeWeights, jsOr, jsOrN]

end SanityChecks

/-! ## Backtest layer (src/test) -/

/-- Insertion-ordered map lookup, modelling a JS `Map.get`. -/
def alistGet {α : Type} : List (String × α) → String → Option α
  | [], _ => none
  | kv :: tl, k => if kv.1 = k then some kv.2 else alistGet tl k

/-- Insertion-ordered map update, modelling `Map.set`: replace in place when
the key exists (keys are unique in every reachable map), append otherwise. -/
def alistSet {α : Type} : List (String × α) → String → α → List (String × α)
  | [], k, v => [(k, v)]
  | kv :: tl, k, v => if kv.1 = k then (k, v) :: tl else kv :: alistSet tl k v

/-- `Map.delete`. -/
def alistDelete {α : Type} : List (String × α) → String → List (String × α)
  | [], _ => []
  | kv :: tl, k => if kv.1 = k then alistDelete tl k else kv :: alistDelete tl k

/-- `BacktestCandleData` (src/test/types.ts:6-18); the two presentational
date-string fields are omitted. -/
structure BacktestCandleData where
  market : String
  opening_price : ℚ := 0
  high_price : ℚ := 0
  low_price : ℚ := 0
  trade_price : ℚ
  timestamp : ℕ
  candle_acc_trade_price : ℚ := 0
  candle_acc_trade_volume : ℚ
  unit : Option ℕ := none

inductive OrderSide
  | bid
  | ask
  deriving DecidableEq

inductive OrderType
  | limit
  | market
  deriving DecidableEq

/-- `BacktestOrder` (src/test/types.ts:41-49).  The source carries volume and
price as decimal strings and parses them back with `parseFloat`; they are
modelled as the parsed rationals.  `createdAt` (write-only) is omitted;
uuids are modelled as naturals drawn from an entropy stream. -/
structure BacktestOrder where
  market : String
  side : OrderSide
  ord_type : OrderType
  volume : ℚ
  price : Option ℚ := none
  uuid : Option ℕ := none

/-- `BacktestTrade` (src/test/types.ts:52-63). -/
structure BacktestTrade where
  uuid : ℕ
  market : String
  side : OrderSide
  orderType : OrderType
  price : ℚ
  volume : ℚ
  amount : ℚ
  fee : ℚ
  timestamp : ℕ
  profit : Option ℚ := none

/-- `BacktestPosition` (src/test/types.ts:66-76); the write-only
`baseCurrency`/`quoteCurrency` strings (computed by splitting the market code)
are omitted. -/
structure BacktestPosition where
  market : String
  volume : ℚ
  averageEntryPrice : ℚ
  currentPrice : Option ℚ := none
  currentValue : Option ℚ := none
  profit : Option ℚ := none
  profitRate : Option ℚ := none

/-- Reason attached to a `BacktestStrategySignal`. -/
inductive BSReason
  | core (r : SigReason)
  | notEnoughData
  deriving DecidableEq

/-- `BacktestStrategySignal` (src/test/types.ts:79-87). -/
structure BacktestStrategySignal where
  action : TradeAction
  market : String
  price : Option ℚ := none
  volume : Option ℚ := none
  reason : Option BSReason := none
  score : Option ℚ := none

/-- `BacktestStrategyConfig` (src/test/types.ts:90-117).  The typed fields plus
the untyped passthrough keys (`[key: string]: any`) that the orchestrator
forwards into the core `StrategyConfig`. -/
structure BacktestStrategyConfig where
  candleUnit : Option ℕ := none
  candleCount : Option ℕ := none
  bollingerPeriod : Option ℕ := none
  bollingerStdDev : Option ℚ := none
  rsiPeriod : Option ℕ := none
  rsiOverbought : Option ℚ := none
  rsiOversold : Option ℚ := none
  mfiPeriod : Option ℕ := none
  mfiOverbought : Option ℚ := none
  mfiOversold : Option ℚ := none
  movingAveragePeriod : Option ℕ := none
  minTradeVolume : Option ℚ := none
  maxTradeRatio : Option ℚ := none
  stopLossPercent : Option ℚ := none
  takeProfitPercent : Option ℚ := none
  feeRate : Option ℚ := none
  initialBalance : Option ℚ := none
  printSignalDetails : Option Bool := none
  sellRatioOfPosition : Option ℚ := none
  emaShortPeriod : Option ℕ := none
  emaMidPeriod : Option ℕ := none
  emaLongPeriod : Option ℕ := none
  volumeSpikeMultiplier : Option ℚ := none
  buyScoreThresholdShortTerm : Option ℚ := none
  sellScoreThresholdShortTerm : Option ℚ := none
  macdShortPeriod : Option ℕ := none
  macdLongPeriod : Option ℕ := none
  macdSignalPeriod : Option ℕ := none
  allowPyramiding : Option Bool := none
  maxPyramidingCount : Option ℕ := none
  pyramidingConditionDropPercent : Option ℚ := none
  pyramidingOrderSizeRatio : Option ℚ := none
  pyramidingRsiCondition : Option PyramidingRsiCondition := none
  weights : Option StrategyWeights := none

namespace BacktestPortfolioManager

/-- The mutable state owned by `BacktestPortfolioManager`
(src/test/backtest-portfolio-manager.ts:12-38). -/
structure PMState where
  initialBalance : ℚ
  currentBalance : ℚ
  feeRate : ℚ
  positions : List (String × BacktestPosition)
  trades : List BacktestTrade
  marketPrices : List (String × ℚ)

/-- Constructor / `reset` (backtest-portfolio-manager.ts:21-48): cash back to
the initial balance, positions, trades and price marks cleared. -/
def reset (initialBalance feeRate : ℚ) : PMState :=
  ⟨initialBalance, initialBalance, feeRate, [], [], []⟩

/-- `updateMarketPrice` (backtest-portfolio-manager.ts:62-75): record the last
seen price and refresh the held position's mark-to-market fields. -/
def updateMarketPrice (s : PMState) (market : String) (price : ℚ) : PMState :=
  let positions :=
    match alistGet s.positions market with
    | none => s.positions
    | some position =>
      let position := { position with
        currentPrice := some price
        currentValue := some (position.volume * price) }
      let position :=
        if position.averageEntryPrice > 0 then
          { position with
            profit := some ((price - position.averageEntryPrice) * position.volume)
            profitRate := some (price / position.averageEntryPrice - 1) }
        else position
      alistSet s.positions market position
  { s with marketPrices := alistSet s.marketPrices market price, positions := positions }

/-- `getTotalAssetValue` (backtest-portfolio-manager.ts:91-99): cash plus each
position marked at the last seen price, falling back (via JS `||`) to the
average entry price. -/
def getTotalAssetValue (s : PMState) : ℚ :=
  s.currentBalance +
    (s.positions.map (fun kv =>
      kv.2.volume * jsOr (alistGet s.marketPrices kv.2.market) kv.2.averageEntryPrice)).sum

/-- The execution-price determination at the head of `recordTrade`
(backtest-portfolio-manager.ts:116-126): a limit order executes at its own
price, a market order at the current candle close; a limit order with no price
is the unsupported shape (rejected). -/
def orderPrice (order : BacktestOrder) (currentCandle : BacktestCandleData) :
    Option ℚ :=
  match order.ord_type, order.price with
  | OrderType.limit, some p => some p
  | OrderType.limit, none => none
  | OrderType.market, _ => some currentCandle.trade_price

/-- `recordTrade` (backtest-portfolio-manager.ts:107-203).  Rejections return
`(none, unchanged state)`: unsupported order shape, non-positive volume or
price, insufficient cash (buy), missing or insufficient position (sell).  A
sell that leaves the volume at or below `1e-8` deletes the position.  The
`uuidv4()` fallback for an order without a uuid is modelled as uuid 0; every
caller in the pipeline supplies one. -/
def recordTrade (s : PMState) (order : BacktestOrder)
    (currentCandle : BacktestCandleData) : Option BacktestTrade × PMState :=
  let volume := order.volume
  match orderPrice order currentCandle with
  | none => (none, s)
  | some price =>
    if volume ≤ 0 ∨ price ≤ 0 then (none, s)
    else
      let amount := price * volume
      let fee := amount * s.feeRate
      let tradeUuid := order.uuid.getD 0
      match order.side with
      | OrderSide.bid =>
        if s.currentBalance < amount + fee then (none, s)
        else
          let position := (alistGet s.positions order.market).getD
            ⟨order.market, 0, 0, none, none, none, none⟩
          let newTotalVolume := position.volume + volume
          let position := { position with
            averageEntryPrice :=
              (position.averageEntryPrice * position.volume + amount) / newTotalVolume
            volume := newTotalVolume }
          let newTrade : BacktestTrade :=
            ⟨tradeUuid, order.market, order.side, order.ord_type, price, volume,
              amount, fee, currentCandle.timestamp, none⟩
          (some newTrade,
            { s with
              currentBalance := s.currentBalance - (amount + fee)
              positions := alistSet s.positions order.market position
              trades := s.trades ++ [newTrade] })
      | OrderSide.ask =>
        match alistGet s.positions order.market with
        | none => (none, s)
        | some position =>
          if position.volume < volume then (none, s)
          else
            let tradeProfit : Option ℚ :=
              if position.averageEntryPrice > 0 then
                some ((price - position.averageEntryPrice) * volume - fee)
              else none
            let newVolume := position.volume - volume
            let positions :=
              if newVolume ≤ 1/100000000 then alistDelete s.positions order.market
              else alistSet s.positions order.market { position with volume := newVolume }
            let newTrade : BacktestTrade :=
              ⟨tradeUuid, order.market, order.side, order.ord_type, price, volume,
                amount, fee, currentCandle.timestamp, tradeProfit⟩
            (some newTrade,
              { s with
                currentBalance := s.currentBalance + (amount - fee)
                positions := positions
                trades := s.trades ++ [newTrade] })

end BacktestPortfolioManager

open BacktestPortfolioManager

namespace BacktestDataManager

/-- `BacktestDataManager.getCandles` (src/unnamed/part_005:88-107): the window
of up to `count` candles ending at `endIndex`, most-recent-first. -/
def getCandles (allCandles : List BacktestCandleData) (count : ℕ) (endIndex : ℕ) :
    List BacktestCandleData :=
  if allCandles.length = 0 then []
  else
    let actualEndIndex := min endIndex (allCandles.length - 1)
    let startIndex := actualEndIndex + 1 - count
    (((allCandles.drop startIndex).take (actualEndIndex + 1 - startIndex))).reverse

end BacktestDataManager

namespace BacktestStrategyOrchestrator

/-- `convertToCoreStrategyConfig` (backtester.ts appended orchestrator,
lines 474-504): rename the backtest threshold fields, scale the stop-loss /
take-profit fractions to percentages, default `weights` and
`pyramidingRsiCondition` to empty objects, and drop the backtest-only keys. -/
def convertToCoreStrategyConfig (config : BacktestStrategyConfig) : StrategyConfig :=
  { bollingerPeriod := config.bollingerPeriod
    bollingerStdDev := config.bollingerStdDev
    emaShortPeriod := config.emaShortPeriod
    emaMidPeriod := config.emaMidPeriod
    emaLongPeriod := config.emaLongPeriod
    rsiPeriod := config.rsiPeriod
    rsiOverboughtThreshold := config.rsiOverbought
    rsiOversoldThreshold := config.rsiOversold
    volumeSpikeMultiplier := config.volumeSpikeMultiplier
    buyScoreThresholdShortTerm := config.buyScoreThresholdShortTerm
    stopLossPercentShortTerm := config.stopLossPercent.map (fun p => p * 100)
    profitTargetPercentShortTerm := config.takeProfitPercent.map (fun p => p * 100)
    sellScoreThresholdShortTerm := config.sellScoreThresholdShortTerm
    macdShortPeriod := config.macdShortPeriod
    macdLongPeriod := config.macdLongPeriod
    macdSignalPeriod := config.macdSignalPeriod
    allowPyramiding := config.allowPyramiding
    maxPyramidingCount := config.maxPyramidingCount
    pyramidingConditionDropPercent := config.pyramidingConditionDropPercent
    pyramidingOrderSizeRatio := config.pyramidingOrderSizeRatio
    pyramidingRsiCondition := some (config.pyramidingRsiCondition.getD {})
    weights := some (config.weights.getD {}) }

/-- `convertToCorePosition` (orchestrator lines 506-515). -/
def convertToCorePosition (position : Option BacktestPosition) : Option Position :=
  match position with
  | none => none
  | some p =>
    if p.volume ≤ 0 then none
    else some ⟨p.market, p.averageEntryPrice, p.volume, none⟩

/-- `determineSignalForMarket` (orchestrator lines 517-611), with the candle
store and the currently held position passed explicitly (the source reads them
from the data manager and the portfolio manager). -/
def determineSignalForMarket (allCandles : List BacktestCandleData)
    (market : String) (strategyConfig : BacktestStrategyConfig)
    (currentCandleIndex : ℕ) (currentBacktestPosition : Option BacktestPosition) :
    BacktestStrategySignal :=
  let candleCount := jsOrN strategyConfig.candleCount 200
  let candles := BacktestDataManager.getCandles allCandles candleCount currentCandleIndex
  if candles.length = 0 ∨ candles.length < jsOrN strategyConfig.bollingerPeriod 20 ∨
      candles.length < jsOrN strategyConfig.rsiPeriod 15 then
    -- the source writes `strategyConfig.rsiPeriod || 14 + 1`, i.e. fallback 15
    ⟨.hold, market, none, none, some .notEnoughData, none⟩
  else
    let closePrices := candles.map (fun c => c.trade_price)
    let tradeVolumes := candles.map (fun c => c.candle_acc_trade_volume)
    let corePosition := convertToCorePosition currentBacktestPosition
    let coreStrategyConfig := convertToCoreStrategyConfig strategyConfig
    let coreSignal := SignalGenerator.generateSignal market closePrices tradeVolumes
      corePosition coreStrategyConfig
    -- the conversion back drops the core signal's volume (orchestrator lines 566-572)
    ⟨coreSignal.action, coreSignal.market, coreSignal.price, none,
      some (.core coreSignal.reason), some coreSignal.score⟩

end BacktestStrategyOrchestrator

namespace MockOrderExecutor

/-- `MockOrderExecutor.createOrder` (src/test/mock-order-executor.ts:27-71):
fill in a uuid when absent (modelled by `fresh`, standing for the `uuidv4()`
call; unreachable in the replay pipeline, which always sets one) and forward
to the portfolio manager. -/
def createOrder (s : PMState) (order : BacktestOrder)
    (currentCandle : BacktestCandleData) (fresh : ℕ) :
    Option BacktestTrade × PMState :=
  let orderWithDefaults := { order with uuid := some (order.uuid.getD fresh) }
  recordTrade s orderWithDefaults currentCandle

end MockOrderExecutor

namespace Backtester

/-- `DEFAULT_STRATEGY_CONFIG` (src/test/backtester.ts:18-37). -/
def DEFAULT_STRATEGY_CONFIG : BacktestStrategyConfig :=
  { candleUnit := some 1
    candleCount := some 200
    bollingerPeriod := some 20
    bollingerStdDev := some 2
    rsiPeriod := some 14
    rsiOverbought := some 70
    rsiOversold := some 30
    mfiPeriod := some 14
    mfiOverbought := some 80
    mfiOversold := some 20
    movingAveragePeriod := some 20
    minTradeVolume := some (1/10000)
    maxTradeRatio := some (1/4)
    stopLossPercent := some (1/20)
    takeProfitPercent := some (1/10)
    feeRate := some (1/2000)
    initialBalance := some 1000000
    printSignalDetails := some false }

/-- `Backtester.calculateTradeVolume` (src/test/backtester.ts:89-150): the
fallback order-sizing used when the signal carries no volume. -/
def calculateTradeVolume (pm : PMState) (market : String) (currentPrice : ℚ)
    (action : TradeAction) (config : BacktestStrategyConfig) : ℚ :=
  let maxTradeRatio := jsOr config.maxTradeRatio (1/4)
  let minTradeVolumeAsset := jsOr config.minTradeVolume (1/10000)
  let minTradeValueKRW : ℚ := 5000
  let feeRate := jsOr config.feeRate (1/2000)
  if action = TradeAction.buy then
    let availableBalance := pm.currentBalance
    let maxSpendable := availableBalance / (1 + feeRate)
    if maxSpendable < minTradeValueKRW then 0
    else
      let targetSpend := maxSpendable * maxTradeRatio
      let targetSpend := if targetSpend < minTradeValueKRW then minTradeValueKRW else targetSpend
      let volume := targetSpend / currentPrice
      if volume < minTradeVolumeAsset then
        let costForMinAssetVolume := minTradeVolumeAsset * currentPrice
        if costForMinAssetVolume ≥ minTradeValueKRW ∧
            costForMinAssetVolume * (1 + feeRate) ≤ maxSpendable then
          minTradeVolumeAsset
        else 0
      else volume
  else
    match alistGet pm.positions market with
    | some position =>
      if position.volume > 0 then
        let volumeToSell := position.volume * jsOr config.sellRatioOfPosition 1
        if volumeToSell < minTradeVolumeAsset ∨ volumeToSell * currentPrice < minTradeValueKRW then
          if position.volume ≥ minTradeVolumeAsset ∧
              position.volume * currentPrice ≥ minTradeValueKRW then
            position.volume
          else 0
        else volumeToSell
      else 0
    | none => 0

/-- The warm-up length of the replay loop (backtester.ts:192-197). -/
def minCandlesForIndicators (config : BacktestStrategyConfig) : ℕ :=
  max (max (jsOrN config.candleCount 0) (jsOrN config.bollingerPeriod 0))
    (max (jsOrN config.rsiPeriod 0) 20)

/-- The per-run mutable locals of `Backtester.run` (backtester.ts:184-198). -/
structure SimState where
  pm : PMState
  buySignals : ℕ
  sellSignals : ℕ
  holdSignals : ℕ
  peakBalance : ℚ
  maxDrawdown : ℚ
  simulatedCandlesCount : ℕ
  uuidIdx : ℕ

/-- JS truthiness of an optional number. -/
def jsTruthyQ (o : Option ℚ) : Bool :=
  match o with
  | some v => decide (v ≠ 0)
  | none => false

/-- The peak-balance / maximum-drawdown bookkeeping closing each replay-loop
iteration (backtester.ts:289-300). -/
def updateDrawdown (s : SimState) : SimState :=
  let currentTotalAssetValue := getTotalAssetValue s.pm
  let peakBalance :=
    if currentTotalAssetValue > s.peakBalance then currentTotalAssetValue else s.peakBalance
  let drawdown :=
    if peakBalance > 0 then (peakBalance - currentTotalAssetValue) / peakBalance else 0
  let maxDrawdown := if drawdown > s.maxDrawdown then drawdown else s.maxDrawdown
  { s with peakBalance := peakBalance, maxDrawdown := maxDrawdown }

/-- One iteration of the replay loop of `Backtester.run`
(backtester.ts:200-301): mark the price, skip while warming up, evaluate the
decision engine, size and submit the order, and close with the peak/drawdown
bookkeeping.  `us` is the entropy stream supplying each `uuidv4()` call. -/
def step (allCandles : List BacktestCandleData) (market : String)
    (currentRunConfig : BacktestStrategyConfig) (us : ℕ → ℕ)
    (s : SimState) (ic : ℕ × BacktestCandleData) : SimState :=
  let i := ic.1
  let currentCandle := ic.2
  let pm0 := updateMarketPrice s.pm market currentCandle.trade_price
  let s := { s with pm := pm0 }
  if i < minCandlesForIndicators currentRunConfig - 1 then s
  else
    let s := { s with simulatedCandlesCount := s.simulatedCandlesCount + 1 }
    let signal := BacktestStrategyOrchestrator.determineSignalForMarket allCandles market
      currentRunConfig i (alistGet s.pm.positions market)
    let s :=
      if signal.action = TradeAction.buy then
        let volumeToTrade :=
          match signal.volume with
          | some v => if v ≤ 0 then calculateTradeVolume s.pm market
              currentCandle.trade_price TradeAction.buy currentRunConfig
            else v
          | none => calculateTradeVolume s.pm market currentCandle.trade_price
              TradeAction.buy currentRunConfig
        if volumeToTrade > 0 then
          let order : BacktestOrder :=
            { market := market
              side := OrderSide.bid
              ord_type := if jsTruthyQ signal.price then OrderType.limit else OrderType.market
              volume := volumeToTrade
              price := signal.price
              uuid := some (us s.uuidIdx) }
          let result := MockOrderExecutor.createOrder s.pm order currentCandle (us s.uuidIdx)
          { s with buySignals := s.buySignals + 1, pm := result.2, uuidIdx := s.uuidIdx + 1 }
        else s
      else if signal.action = TradeAction.sell then
        match alistGet s.pm.positions market with
        | none => { s with holdSignals := s.holdSignals + 1 }
        | some currentPosition =>
          if currentPosition.volume ≤ 0 then { s with holdSignals := s.holdSignals + 1 }
          else
            let volumeToTrade :=
              match signal.volume with
              | some v => if v ≤ 0 then calculateTradeVolume s.pm market
                  currentCandle.trade_price TradeAction.sell currentRunConfig
                else v
              | none => calculateTradeVolume s.pm market currentCandle.trade_price
                  TradeAction.sell currentRunConfig
            let volumeToTrade :=
              if volumeToTrade > currentPosition.volume then currentPosition.volume
              else volumeToTrade
            if volumeToTrade > 0 then
              let order : BacktestOrder :=
                { market := market
                  side := OrderSide.ask
                  ord_type := if jsTruthyQ signal.price then OrderType.limit else OrderType.market
                  volume := volumeToTrade
                  price := signal.price
                  uuid := some (us s.uuidIdx) }
              let result := MockOrderExecutor.createOrder s.pm order currentCandle (us s.uuidIdx)
              { s with sellSignals := s.sellSignals + 1, pm := result.2, uuidIdx := s.uuidIdx + 1 }
            else { s with holdSignals := s.holdSignals + 1 }
      else { s with holdSignals := s.holdSignals + 1 }
    updateDrawdown s

/-- `BacktestRunResult` (backtester.ts:39-58); the echoed config, unit and the
wall-clock `simulationDurationMs` are omitted. -/
structure BacktestRunResult where
  market : String
  initialBalance : ℚ
  finalBalance : ℚ
  totalProfit : ℚ
  totalProfitRate : ℚ
  trades : List BacktestTrade
  winCount : ℕ
  lossCount : ℕ
  winRate : ℚ
  maxDrawdown : ℚ
  buySignals : ℕ
  sellSignals : ℕ
  holdSignals : ℕ
  totalCandles : ℕ
  simulatedCandles : ℕ

/-- The win/loss classification of a closed trade (backtester.ts:306-307):
`profit` strictly positive / strictly negative. -/
def isWinTrade (t : BacktestTrade) : Bool :=
  match t.profit with
  | some p => decide (p > 0)
  | none => false

def isLossTrade (t : BacktestTrade) : Bool :=
  match t.profit with
  | some p => decide (p < 0)
  | none => false

/-- `Backtester.run` (src/test/backtester.ts:152-344) on an already-loaded,
timestamp-sorted candle series (the CSV load is I/O).  `currentRunConfig` is
the merged run configuration; `us` the uuid entropy stream.  An empty candle
series is the thrown-error case, returned as `none`. -/
def run (allCandles : List BacktestCandleData) (market : String)
    (currentRunConfig : BacktestStrategyConfig) (us : ℕ → ℕ) :
    Option BacktestRunResult :=
  if allCandles.length = 0 then none
  else
    let initialBalance := currentRunConfig.initialBalance.getD 1000000
    let pm := reset initialBalance (currentRunConfig.feeRate.getD (1/2000))
    let s0 : SimState := ⟨pm, 0, 0, 0, initialBalance, 0, 0, 0⟩
    let final := allCandles.enum.foldl (step allCandles market currentRunConfig us) s0
    let trades := final.pm.trades
    let finalBalance := getTotalAssetValue final.pm
    let totalProfit := finalBalance - initialBalance
    let totalProfitRate := if initialBalance > 0 then totalProfit / initialBalance else 0
    let winCount := (trades.filter isWinTrade).length
    let lossCount := (trades.filter isLossTrade).length
    let winRate :=
      if winCount + lossCount > 0 then (winCount : ℚ) / ((winCount : ℚ) + (lossCount : ℚ))
      else 0
    some
      { market := market
        initialBalance := initialBalance
        finalBalance := finalBalance
        totalProfit := totalProfit
        totalProfitRate := totalProfitRate
        trades := trades
        winCount := winCount
        lossCount := lossCount
        winRate := winRate
        maxDrawdown := final.maxDrawdown
        buySignals := final.buySignals
        sellSignals := final.sellSignals
        holdSignals := final.holdSignals
        totalCandles := allCandles.length
        simulatedCandles := final.simulatedCandlesCount }

end Backtester

namespace RiskManager

/-- `RiskManager.determineInvestmentAmountForBuy` (src/unnamed/part_004:27-130),
the score-linear allocator: a new buy maps the signal score linearly onto
[minimum order amount, max(minimum, 25% of cash)]; a pyramiding buy invests a
score-scaled fraction of the current position value.  The cash balance and the
held position are passed explicitly (the source reads them from its portfolio
manager); `config.upbit.minOrderAmountKRW` is 5000,
`config.trading.maxTradeBalancePercentage` is absent (so 25),
`config.trading.tradeAmount` is 5200 and
`config.trading.defaultStrategyConfig.pyramidingOrderSizeRatio` is absent
(so 0.5), per src/config.ts. -/
def determineInvestmentAmountForBuy (market : String) (signal : StrategyResult)
    (krwBalance : ℚ) (position : Option Position) : Option ℚ :=
  let _ := market
  let currentEntryPrice := position.map (fun p => p.entryPrice)
  let currentVolume := position.map (fun p => p.volume)
  let maxInvestmentPercentage : ℚ := 25
  let minInvestmentAmount : ℚ := 5000
  let maxInvestmentAmount := max minInvestmentAmount (krwBalance * (maxInvestmentPercentage / 100))
  let isPyramiding : Bool :=
    match signal.reason with
    | SigReason.pyramiding _ => true
    | _ => false
  let baseInvestmentAmount : ℚ :=
    if isPyramiding then
      let haveInfo : Bool :=
        (match currentEntryPrice with
          | some ep => decide (ep ≠ 0)
          | none => false) &&
        (match currentVolume with
          | some v => decide (v ≠ 0) && decide (v > 0)
          | none => false)
      if haveInfo then
        let pyramidingRatio : ℚ := 1/2
        let scoreAdjustmentRatio := 1/2 + signal.score / 200
        let adjustedRatio := pyramidingRatio * scoreAdjustmentRatio
        let currentPositionValue := currentEntryPrice.getD 0 * currentVolume.getD 0
        currentPositionValue * adjustedRatio
      else 5200
    else
      if signal.score ≤ 0 then minInvestmentAmount
      else if signal.score ≥ 100 then maxInvestmentAmount
      else minInvestmentAmount + (maxInvestmentAmount - minInvestmentAmount) * (signal.score / 100)
  let finalInvestmentAmount := min baseInvestmentAmount maxInvestmentAmount
  let finalInvestmentAmount :=
    if finalInvestmentAmount > krwBalance then krwBalance else finalInvestmentAmount
  if finalInvestmentAmount < minInvestmentAmount then none
  else some finalInvestmentAmount

end RiskManager

/-! ## Claims -/

/-- Clamp-and-round bound: the shape of the tiered calculators' final score. -/
theorem jsRound_clamp_props (t : ℚ) :
    0 ≤ jsRound (max 0 (min 100 t)) ∧ jsRound (max 0 (min 100 t)) ≤ 100 ∧
    ∃ n : ℤ, jsRound (max 0 (min 100 t)) = (n : ℚ) := by
  have h0 : (0 : ℚ) ≤ max 0 (min 100 t) := le_max_left _ _
  have h100 : max 0 (min 100 t) ≤ 100 := by
    rcases le_total (0 : ℚ) (min 100 t) with h | h
    · rw [max_eq_right h]; exact min_le_left _ _
    · rw [max_eq_left h]; norm_num
  refine ⟨?_, ?_, ⟨⌊max 0 (min 100 t) + 1/2⌋, rfl⟩⟩
  · have : (0 : ℤ) ≤ ⌊max 0 (min 100 t) + 1/2⌋ := by
      apply Int.le_floor.mpr
      push_cast
      linarith
    unfold jsRound
    exact_mod_cast this
  · have : ⌊max 0 (min 100 t) + 1/2⌋ ≤ ⌊(100 : ℚ) + 1/2⌋ :=
      Int.floor_le_floor (by linarith)
    have h2 : ⌊(100 : ℚ) + 1/2⌋ = 100 := by norm_num
    unfold jsRound
    rw [h2] at this
    exact_mod_cast this

/-- Claim C7 (confirmed) — warm-up gating: whenever the close-price series is
shorter than `max(bollingerPeriod, emaLongPeriod, rsiPeriod + 1)` (under the
merged configuration), `generateSignal` returns a hold with score 0 and the
insufficient-data reason, for every position and volume series. -/
theorem warmup_gating_holds (market : String) (closePrices volumes : List ℚ)
    (currentPosition : Option Position) (strategyCfgInput : StrategyConfig)
    (h : closePrices.length <
      max ((mergeStrategyConfigSG strategyCfgInput).bollingerPeriod.getD 20)
        (max ((mergeStrategyConfigSG strategyCfgInput).emaLongPeriod.getD 20)
          ((mergeStrategyConfigSG strategyCfgInput).rsiPeriod.getD 14 + 1))) :
    SignalGenerator.generateSignal market closePrices volumes currentPosition
      strategyCfgInput =
    ⟨TradeAction.hold, market, SigReason.dataShortage, none, none, 0⟩ := by
  unfold SignalGenerator.generateSignal
  simp only []
  rw [if_pos h]

/-- Witness for C7: an empty series under the default configuration holds with
score 0. -/
theorem warmup_gating_holds_witness :
    SignalGenerator.generateSignal "KRW-BTC" [] [] none {} =
    ⟨TradeAction.hold, "KRW-BTC", SigReason.dataShortage, none, none, 0⟩ :=
  warmup_gating_holds "KRW-BTC" [] [] none {}
    (by norm_num [mergeStrategyConfigSG, defaultStrategyConfig])

/-- Claim C4, counterexample: at a valid input (RSI 10, all buy conditions
firing) with the default configuration weights, the base
`ScoreCalculator.calculateBuyScore` cited by the spec returns 120, outside
[0,100] — this variant neither clamps nor rounds. -/
theorem calculateBuyScore_exceeds_100 :
    (ScoreCalculator.calculateBuyScore 200 ⟨100, 50, 0, 2⟩ 3 2 1 10 300 100
      defaultStrategyConfig none).score = 120 ∧
    ¬ ((ScoreCalculator.calculateBuyScore 200 ⟨100, 50, 0, 2⟩ 3 2 1 10 300 100
      defaultStrategyConfig none).score ≤ 100) := by
  constructor <;>
    norm_num [ScoreCalculator.calculateBuyScore, defaultStrategyConfig,
      defaultConfigWeights, jsOr]

/-- Claim C4 (amended): in the tiered `ScoreCalculator` variant (the one the
spec's §4.2 describes, bundled with signal-generator.ts), both
`calculateBuyScore` and `calculateSellPressureScore` return a rounded
(integral) score lying in [0,100], for every input and configuration. -/
theorem tiered_scores_rounded_in_range (currentPrice : ℚ)
    (bollingerBands : BollingerBands) (emaShort emaMid emaLong rsi : ℚ)
    (currentVolume avgVolume : ℚ) (strategyCfg : StrategyConfig)
    (macdResult : Option MACDResult) (currentProfitRate : Option ℚ) :
    (0 ≤ (ScoreCalculatorTiered.calculateBuyScore currentPrice bollingerBands
        emaShort emaMid emaLong rsi currentVolume avgVolume strategyCfg
        macdResult).score ∧
      (ScoreCalculatorTiered.calculateBuyScore currentPrice bollingerBands
        emaShort emaMid emaLong rsi currentVolume avgVolume strategyCfg
        macdResult).score ≤ 100 ∧
      ∃ n : ℤ, (ScoreCalculatorTiered.calculateBuyScore currentPrice bollingerBands
        emaShort emaMid emaLong rsi currentVolume avgVolume strategyCfg
        macdResult).score = (n : ℚ)) ∧
    (0 ≤ (ScoreCalculatorTiered.calculateSellPressureScore currentPrice
        bollingerBands emaShort emaMid rsi strategyCfg currentProfitRate
        macdResult).score ∧
      (ScoreCalculatorTiered.calculateSellPressureScore currentPrice
        bollingerBands emaShort emaMid rsi strategyCfg currentProfitRate
        macdResult).score ≤ 100 ∧
      ∃ n : ℤ, (ScoreCalculatorTiered.calculateSellPressureScore currentPrice
        bollingerBands emaShort emaMid rsi strategyCfg currentProfitRate
        macdResult).score = (n : ℚ)) := by
  constructor
  · unfold ScoreCalculatorTiered.calculateBuyScore
    exact jsRound_clamp_props _
  · unfold ScoreCalculatorTiered.calculateSellPressureScore
    exact jsRound_clamp_props _

/-- The volume currently held for a market, 0 when the position is absent. -/
def heldVolume (s : PMState) (market : String) : ℚ :=
  match alistGet s.positions market with
  | some position => position.volume
  | none => 0

/-- Any rejection of `recordTrade` leaves the ledger state untouched. -/
theorem recordTrade_none_frame (s : PMState) (o : BacktestOrder)
    (c : BacktestCandleData) :
    (recordTrade s o c).1 = none → (recordTrade s o c).2 = s := by
  unfold recordTrade
  rcases orderPrice o c with _ | price
  · intro _; rfl
  · simp only []
    by_cases h1 : o.volume ≤ 0 ∨ price ≤ 0
    · rw [if_pos h1]; intro _; rfl
    · rw [if_neg h1]
      cases hside : o.side
      · simp only []
        split_ifs <;> intro hc <;>
          first
          | rfl
          | exact absurd hc (by simp)
      · simp only []
        rcases halist : alistGet s.positions o.market with _ | pos
        · intro _; rfl
        · simp only []
          split_ifs <;> intro hc <;>
            first
            | rfl
            | exact absurd hc (by simp)

/-- Claim C3 (confirmed) — ledger rejection and atomicity: for an order with a
positive execution price and positive volume, a buy is rejected exactly when
cash is below `price*volume + fee`, a sell exactly when the held volume is
below the requested volume (0 when no position exists); and every rejection
leaves the whole ledger state unchanged. -/
theorem recordTrade_reject_iff_atomic (s : PMState) (o : BacktestOrder)
    (c : BacktestCandleData) (p : ℚ)
    (hp : orderPrice o c = some p) (hppos : 0 < p) (hv : 0 < o.volume) :
    (o.side = OrderSide.bid →
      ((recordTrade s o c).1 = none ↔
        s.currentBalance < p * o.volume + p * o.volume * s.feeRate)) ∧
    (o.side = OrderSide.ask →
      ((recordTrade s o c).1 = none ↔ heldVolume s o.market < o.volume)) ∧
    ((recordTrade s o c).1 = none → (recordTrade s o c).2 = s) := by
  have hcond : ¬ (o.volume ≤ 0 ∨ p ≤ 0) := by push_neg; exact ⟨hv, hppos⟩
  refine ⟨?_, ?_, recordTrade_none_frame s o c⟩
  · intro hbid
    unfold recordTrade
    rw [hp]
    simp only [if_neg hcond, hbid]
    split_ifs with h2
    · simp [h2]
    · simp [h2]
  · intro hask
    unfold recordTrade
    rw [hp]
    simp only [if_neg hcond, hask]
    rcases halist : alistGet s.positions o.market with _ | pos
    · simp only [heldVolume, halist]
      simpa using hv
    · simp only [heldVolume, halist]
      split_ifs with h2
      · simp [h2]
      · simp [h2]

/-- Witness for C3: a buy of 20 units at price 100 against a cash balance of
1000 (fee rate 0.05%) is rejected — 1000 < 2000 + 1 — and the ledger state is
returned unchanged; the same order against a balance of 3000 is accepted. -/
theorem recordTrade_reject_iff_atomic_witness :
    ((recordTrade (reset 1000 (1/2000))
        ⟨"KRW-BTC", OrderSide.bid, OrderType.limit, 20, some 100, some 7⟩
        { market := "KRW-BTC", trade_price := 100, timestamp := 5,
          candle_acc_trade_volume := 1 }).1 = none ∧
      (recordTrade (reset 1000 (1/2000))
        ⟨"KRW-BTC", OrderSide.bid, OrderType.limit, 20, some 100, some 7⟩
        { market := "KRW-BTC", trade_price := 100, timestamp := 5,
          candle_acc_trade_volume := 1 }).2 = reset 1000 (1/2000)) ∧
    ¬ (recordTrade (reset 3000 (1/2000))
        ⟨"KRW-BTC", OrderSide.bid, OrderType.limit, 20, some 100, some 7⟩
        { market := "KRW-BTC", trade_price := 100, timestamp := 5,
          candle_acc_trade_volume := 1 }).1 = none := by
  have h1 := recordTrade_reject_iff_atomic (reset 1000 (1/2000))
    ⟨"KRW-BTC", OrderSide.bid, OrderType.limit, 20, some 100, some 7⟩
    { market := "KRW-BTC", trade_price := 100, timestamp := 5,
      candle_acc_trade_volume := 1 } 100
    (by norm_num [orderPrice]) (by norm_num) (by norm_num)
  have h2 := recordTrade_reject_iff_atomic (reset 3000 (1/2000))
    ⟨"KRW-BTC", OrderSide.bid, OrderType.limit, 20, some 100, some 7⟩
    { market := "KRW-BTC", trade_price := 100, timestamp := 5,
      candle_acc_trade_volume := 1 } 100
    (by norm_num [orderPrice]) (by norm_num) (by norm_num)
  have hrej : (recordTrade (reset 1000 (1/2000))
      ⟨"KRW-BTC", OrderSide.bid, OrderType.limit, 20, some 100, some 7⟩
      { market := "KRW-BTC", trade_price := 100, timestamp := 5,
        candle_acc_trade_volume := 1 }).1 = none :=
    (h1.1 rfl).mpr (by norm_num [reset])
  refine ⟨⟨hrej, h1.2.2 hrej⟩, ?_⟩
  intro hcon
  have := (h2.1 rfl).mp hcon
  norm_num [reset] at this

theorem alistGet_set_self {α : Type} (l : List (String × α)) (k : String) (v : α) :
    alistGet (alistSet l k v) k = some v := by
  induction l with
  | nil => simp [alistGet, alistSet]
  | cons hd tl ih =>
    by_cases hhd : hd.1 = k
    · simp [alistGet, alistSet, hhd]
    · simp only [alistSet, if_neg hhd, alistGet]
      exact ih

theorem alistGet_set_ne {α : Type} (l : List (String × α)) (k m : String) (v : α)
    (hne : m ≠ k) : alistGet (alistSet l k v) m = alistGet l m := by
  have hkm : ¬ k = m := fun h => hne h.symm
  induction l with
  | nil => simp [alistGet, alistSet, hkm]
  | cons hd tl ih =>
    by_cases hhd : hd.1 = k
    · have hhm : ¬ hd.1 = m := by rw [hhd]; exact hkm
      simp [alistGet, alistSet, hhd, hkm, hhm]
    · by_cases hm : hd.1 = m
      · simp [alistGet, alistSet, if_neg hhd, hm, hne]
      · simp only [alistSet, if_neg hhd, alistGet, if_neg hm]
        exact ih

theorem alistGet_delete_self {α : Type} (l : List (String × α)) (k : String) :
    alistGet (alistDelete l k) k = none := by
  induction l with
  | nil => simp [alistGet, alistDelete]
  | cons hd tl ih =>
    by_cases hhd : hd.1 = k
    · simpa [alistDelete, hhd] using ih
    · simp only [alistDelete, if_neg hhd, alistGet]
      exact ih

theorem alistGet_delete_ne {α : Type} (l : List (String × α)) (k m : String)
    (hne : m ≠ k) : alistGet (alistDelete l k) m = alistGet l m := by
  induction l with
  | nil => simp [alistGet, alistDelete]
  | cons hd tl ih =>
    by_cases hhd : hd.1 = k
    · have hhm : ¬ hd.1 = m := by rw [hhd]; exact fun h => hne h.symm
      simp only [alistDelete, if_pos hhd, alistGet, if_neg hhm]
      exact ih
    · by_cases hm : hd.1 = m
      · simp [alistDelete, if_neg hhd, alistGet, hm, hne]
      · simp only [alistDelete, if_neg hhd, alistGet, if_neg hm]
        exact ih

/-- Claim C6 (confirmed) — average-cost idempotence: an accepted buy of
positive volume at price `P` into an absent position yields average entry
price exactly `P` (and volume equal to the order volume); a further accepted
buy at the same price `P` onto any position with average entry price `P` and
nonnegative volume leaves the average entry price exactly `P`. -/
theorem averageEntryPrice_idempotent (s : PMState) (o : BacktestOrder)
    (c : BacktestCandleData) (P : ℚ)
    (hp : orderPrice o c = some P) (hbid : o.side = OrderSide.bid) :
    (alistGet s.positions o.market = none →
      ∀ t s', recordTrade s o c = (some t, s') →
      ∀ q, alistGet s'.positions o.market = some q →
        q.averageEntryPrice = P ∧ q.volume = o.volume) ∧
    (∀ pos, alistGet s.positions o.market = some pos →
      pos.averageEntryPrice = P → 0 ≤ pos.volume →
      ∀ t s', recordTrade s o c = (some t, s') →
      ∀ q, alistGet s'.positions o.market = some q →
        q.averageEntryPrice = P) := by
  constructor
  · intro h0 t s' hrec q hq
    unfold recordTrade at hrec
    rw [hp] at hrec
    simp only [hbid] at hrec
    by_cases h1 : o.volume ≤ 0 ∨ P ≤ 0
    · rw [if_pos h1] at hrec; simp at hrec
    · rw [if_neg h1] at hrec
      push_neg at h1
      split_ifs at hrec with h2
      · simp at hrec
      · simp only [Prod.mk.injEq] at hrec
        obtain ⟨-, hs⟩ := hrec
        subst hs
        rw [h0] at hq
        rw [alistGet_set_self] at hq
        obtain rfl := Option.some.inj hq
        constructor
        · show (0 * 0 + P * o.volume) / (0 + o.volume) = P
          have hv : o.volume ≠ 0 := ne_of_gt h1.1
          field_simp
        · show (0 : ℚ) + o.volume = o.volume
          ring
  · intro pos hpos havg hvge t s' hrec q hq
    unfold recordTrade at hrec
    rw [hp] at hrec
    simp only [hbid] at hrec
    by_cases h1 : o.volume ≤ 0 ∨ P ≤ 0
    · rw [if_pos h1] at hrec; simp at hrec
    · rw [if_neg h1] at hrec
      push_neg at h1
      split_ifs at hrec with h2
      · simp at hrec
      · simp only [Prod.mk.injEq] at hrec
        obtain ⟨-, hs⟩ := hrec
        subst hs
        rw [hpos] at hq
        rw [alistGet_set_self] at hq
        obtain rfl := Option.some.inj hq
        show (pos.averageEntryPrice * pos.volume + P * o.volume) /
          (pos.volume + o.volume) = P
        rw [havg]
        have hsum : pos.volume + o.volume ≠ 0 :=
          ne_of_gt (by linarith [h1.1])
        field_simp
        ring

/-- Witness for C6: buying 2 units at 50 into an empty ledger (cash 1000, zero
fee) gives average entry price 50; buying 3 more at 50 keeps it at 50. -/
theorem averageEntryPrice_idempotent_witness :
    ∃ q, alistGet
        (recordTrade
          ((recordTrade (reset 1000 0)
            ⟨"KRW-BTC", OrderSide.bid, OrderType.limit, 2, some 50, some 1⟩
            { market := "KRW-BTC", trade_price := 50, timestamp := 3,
              candle_acc_trade_volume := 1 }).2)
          ⟨"KRW-BTC", OrderSide.bid, OrderType.limit, 3, some 50, some 2⟩
          { market := "KRW-BTC", trade_price := 50, timestamp := 4,
            candle_acc_trade_volume := 1 }).2.positions "KRW-BTC" = some q ∧
      q.averageEntryPrice = 50 := by
  have hstep1 : recordTrade (reset 1000 0)
      ⟨"KRW-BTC", OrderSide.bid, OrderType.limit, 2, some 50, some 1⟩
      { market := "KRW-BTC", trade_price := 50, timestamp := 3,
        candle_acc_trade_volume := 1 } =
      (some ⟨1, "KRW-BTC", OrderSide.bid, OrderType.limit, 50, 2, 100, 0, 3, none⟩,
        ⟨1000, 900, 0, [("KRW-BTC", ⟨"KRW-BTC", 2, 50, none, none, none, none⟩)],
          [⟨1, "KRW-BTC", OrderSide.bid, OrderType.limit, 50, 2, 100, 0, 3, none⟩],
          []⟩) := by
    norm_num [recordTrade, orderPrice, reset, alistGet, alistSet]
  have hstep2 := (averageEntryPrice_idempotent
    ⟨1000, 900, 0, [("KRW-BTC", ⟨"KRW-BTC", 2, 50, none, none, none, none⟩)],
      [⟨1, "KRW-BTC", OrderSide.bid, OrderType.limit, 50, 2, 100, 0, 3, none⟩], []⟩
    ⟨"KRW-BTC", OrderSide.bid, OrderType.limit, 3, some 50, some 2⟩
    { market := "KRW-BTC", trade_price := 50, timestamp := 4,
      candle_acc_trade_volume := 1 } 50
    (by norm_num [orderPrice]) rfl).2
    ⟨"KRW-BTC", 2, 50, none, none, none, none⟩
    (by norm_num [alistGet]) rfl (by norm_num)
  rw [hstep1]
  have hstep2run : recordTrade
      ⟨1000, 900, 0, [("KRW-BTC", ⟨"KRW-BTC", 2, 50, none, none, none, none⟩)],
        [⟨1, "KRW-BTC", OrderSide.bid, OrderType.limit, 50, 2, 100, 0, 3, none⟩], []⟩
      ⟨"KRW-BTC", OrderSide.bid, OrderType.limit, 3, some 50, some 2⟩
      { market := "KRW-BTC", trade_price := 50, timestamp := 4,
        candle_acc_trade_volume := 1 } =
      (some ⟨2, "KRW-BTC", OrderSide.bid, OrderType.limit, 50, 3, 150, 0, 4, none⟩,
        ⟨1000, 750, 0, [("KRW-BTC", ⟨"KRW-BTC", 5, 50, none, none, none, none⟩)],
          [⟨1, "KRW-BTC", OrderSide.bid, OrderType.limit, 50, 2, 100, 0, 3, none⟩,
           ⟨2, "KRW-BTC", OrderSide.bid, OrderType.limit, 50, 3, 150, 0, 4, none⟩],
          []⟩) := by
    norm_num [recordTrade, orderPrice, alistGet, alistSet]
  refine ⟨(⟨"KRW-BTC", 5, 50, none, none, none, none⟩ : BacktestPosition), ?_, ?_⟩
  · rw [hstep2run]
    norm_num [alistGet]
  · exact hstep2 _ _ hstep2run ⟨"KRW-BTC", 5, 50, none, none, none, none⟩
      (by norm_num [alistGet])

/-- Claim C10 (confirmed) — frame of a partial sell: an accepted sell that
leaves the position's volume above the removal epsilon `1e-8` changes only the
cash balance (credited `price*volume - fee`), that market's position volume
(decremented, all other position fields — in particular `averageEntryPrice` —
exactly preserved), and the trade log (exactly one appended record); every
other market's position, the price marks, the initial balance and the fee rate
are unchanged. -/
theorem partial_sell_frame (s : PMState) (o : BacktestOrder)
    (c : BacktestCandleData) (pos : BacktestPosition) (P : ℚ)
    (hp : orderPrice o c = some P) (hask : o.side = OrderSide.ask)
    (hpos : alistGet s.positions o.market = some pos)
    (t : BacktestTrade) (s' : PMState) (hrec : recordTrade s o c = (some t, s'))
    (hres : 1/100000000 < pos.volume - o.volume) :
    s'.currentBalance = s.currentBalance + (P * o.volume - P * o.volume * s.feeRate) ∧
    alistGet s'.positions o.market = some { pos with volume := pos.volume - o.volume } ∧
    (∀ m, m ≠ o.market → alistGet s'.positions m = alistGet s.positions m) ∧
    s'.trades = s.trades ++ [t] ∧
    s'.marketPrices = s.marketPrices ∧
    s'.initialBalance = s.initialBalance ∧
    s'.feeRate = s.feeRate := by
  unfold recordTrade at hrec
  rw [hp] at hrec
  simp only [hask] at hrec
  by_cases h1 : o.volume ≤ 0 ∨ P ≤ 0
  · rw [if_pos h1] at hrec; simp at hrec
  · rw [if_neg h1] at hrec
    rw [hpos] at hrec
    simp only [] at hrec
    split_ifs at hrec with h2 h3 h4 h5
    · simp at hrec
    · exact absurd h4 (by intro h; linarith)
    · simp only [Prod.mk.injEq] at hrec
      obtain ⟨ht, hs⟩ := hrec
      subst hs
      obtain rfl := Option.some.inj ht
      refine ⟨rfl, ?_, ?_, rfl, rfl, rfl, rfl⟩
      · exact alistGet_set_self _ _ _
      · intro m hm
        exact alistGet_set_ne _ _ _ _ hm
    · exact absurd h5 (by intro h; linarith)
    · simp only [Prod.mk.injEq] at hrec
      obtain ⟨ht, hs⟩ := hrec
      subst hs
      obtain rfl := Option.some.inj ht
      refine ⟨rfl, ?_, ?_, rfl, rfl, rfl, rfl⟩
      · exact alistGet_set_self _ _ _
      · intro m hm
        exact alistGet_set_ne _ _ _ _ hm

/-- Witness for C10: selling 1 of 5 held units at price 60 (zero fee) credits
60, leaves the position at volume 4 with average entry price 50 intact, and
appends exactly one trade record. -/
theorem partial_sell_frame_witness :
    (recordTrade
      ⟨1000, 750, 0, [("KRW-BTC", ⟨"KRW-BTC", 5, 50, none, none, none, none⟩)], [], []⟩
      ⟨"KRW-BTC", OrderSide.ask, OrderType.limit, 1, some 60, some 9⟩
      { market := "KRW-BTC", trade_price := 60, timestamp := 8,
        candle_acc_trade_volume := 1 }).2.currentBalance = 750 + (60 * 1 - 60 * 1 * 0) ∧
    alistGet (recordTrade
      ⟨1000, 750, 0, [("KRW-BTC", ⟨"KRW-BTC", 5, 50, none, none, none, none⟩)], [], []⟩
      ⟨"KRW-BTC", OrderSide.ask, OrderType.limit, 1, some 60, some 9⟩
      { market := "KRW-BTC", trade_price := 60, timestamp := 8,
        candle_acc_trade_volume := 1 }).2.positions "KRW-BTC" =
      some ⟨"KRW-BTC", 5 - 1, 50, none, none, none, none⟩ := by
  have hrun : recordTrade
      ⟨1000, 750, 0, [("KRW-BTC", ⟨"KRW-BTC", 5, 50, none, none, none, none⟩)], [], []⟩
      ⟨"KRW-BTC", OrderSide.ask, OrderType.limit, 1, some 60, some 9⟩
      { market := "KRW-BTC", trade_price := 60, timestamp := 8,
        candle_acc_trade_volume := 1 } =
      (some ⟨9, "KRW-BTC", OrderSide.ask, OrderType.limit, 60, 1, 60, 0, 8,
          some ((60 - 50) * 1 - 0)⟩,
        ⟨1000, 810, 0, [("KRW-BTC", ⟨"KRW-BTC", 4, 50, none, none, none, none⟩)],
          [⟨9, "KRW-BTC", OrderSide.ask, OrderType.limit, 60, 1, 60, 0, 8,
            some ((60 - 50) * 1 - 0)⟩], []⟩) := by
    norm_num [recordTrade, orderPrice, alistGet, alistSet]
  have h := partial_sell_frame
    ⟨1000, 750, 0, [("KRW-BTC", ⟨"KRW-BTC", 5, 50, none, none, none, none⟩)], [], []⟩
    ⟨"KRW-BTC", OrderSide.ask, OrderType.limit, 1, some 60, some 9⟩
    { market := "KRW-BTC", trade_price := 60, timestamp := 8,
      candle_acc_trade_volume := 1 }
    ⟨"KRW-BTC", 5, 50, none, none, none, none⟩ 60
    (by norm_num [orderPrice]) rfl (by norm_num [alistGet])
    ⟨9, "KRW-BTC", OrderSide.ask, OrderType.limit, 60, 1, 60, 0, 8,
      some ((60 - 50) * 1 - 0)⟩
    _ (by rw [hrun]) (by norm_num)
  rw [hrun]
  exact ⟨h.1, h.2.1⟩

/-- The operations that mutate the ledger between resets
(spec §3 "mutated only by the Portfolio Ledger's apply-order operation"; price
marking via `updateMarketPrice`, order application via `recordTrade`). -/
inductive LedgerOp
  | updatePrice (market : String) (price : ℚ)
  | trade (order : BacktestOrder) (candle : BacktestCandleData)

def applyOp (s : PMState) (op : LedgerOp) : PMState :=
  match op with
  | LedgerOp.updatePrice m p => updateMarketPrice s m p
  | LedgerOp.trade o c => (recordTrade s o c).2

def applyOps (init : PMState) (ops : List LedgerOp) : PMState :=
  ops.foldl applyOp init

/-- Every market present in the positions map holds strictly positive volume. -/
def PositiveVolumes (s : PMState) : Prop :=
  ∀ mkt pos, alistGet s.positions mkt = some pos → 0 < pos.volume

theorem positiveVolumes_updateMarketPrice (s : PMState) (m : String) (p : ℚ)
    (h : PositiveVolumes s) : PositiveVolumes (updateMarketPrice s m p) := by
  intro mkt pos hpos
  unfold updateMarketPrice at hpos
  simp only [] at hpos
  rcases hm : alistGet s.positions m with _ | q
  · rw [hm] at hpos
    exact h mkt pos hpos
  · rw [hm] at hpos
    by_cases hmk : mkt = m
    · subst hmk
      rw [alistGet_set_self] at hpos
      obtain rfl := Option.some.inj hpos
      split_ifs
      · exact h mkt q hm
      · exact h mkt q hm
    · rw [alistGet_set_ne _ _ _ _ hmk] at hpos
      exact h mkt pos hpos

theorem positiveVolumes_recordTrade (s : PMState) (o : BacktestOrder)
    (c : BacktestCandleData) (h : PositiveVolumes s) :
    PositiveVolumes (recordTrade s o c).2 := by
  unfold recordTrade
  rcases orderPrice o c with _ | price
  · exact h
  · simp only []
    by_cases h1 : o.volume ≤ 0 ∨ price ≤ 0
    · rw [if_pos h1]; exact h
    · rw [if_neg h1]
      push_neg at h1
      cases hside : o.side
      · simp only []
        split_ifs with h2
        · exact h
        · intro mkt pos hpos
          simp only [] at hpos
          by_cases hmk : mkt = o.market
          · subst hmk
            rw [alistGet_set_self] at hpos
            obtain rfl := Option.some.inj hpos
            rcases hbase : alistGet s.positions o.market with _ | q
            · simp only [hbase, Option.getD_none]
              simpa using h1.1
            · simp only [hbase, Option.getD_some]
              have := h o.market q hbase
              linarith [h1.1]
          · rw [alistGet_set_ne _ _ _ _ hmk] at hpos
            exact h mkt pos hpos
      · simp only []
        rcases halist : alistGet s.positions o.market with _ | pos0
        · exact h
        · simp only []
          split_ifs with h2 h3 h4 h5
          · exact h
          · intro mkt pos hpos
            by_cases hmk : mkt = o.market
            · subst hmk
              rw [alistGet_delete_self] at hpos
              exact absurd hpos (by simp)
            · rw [alistGet_delete_ne _ _ _ hmk] at hpos
              exact h mkt pos hpos
          · intro mkt pos hpos
            by_cases hmk : mkt = o.market
            · subst hmk
              rw [alistGet_set_self] at hpos
              obtain rfl := Option.some.inj hpos
              simp only []
              linarith [h4]
            · rw [alistGet_set_ne _ _ _ _ hmk] at hpos
              exact h mkt pos hpos
          · intro mkt pos hpos
            by_cases hmk : mkt = o.market
            · subst hmk
              rw [alistGet_delete_self] at hpos
              exact absurd hpos (by simp)
            · rw [alistGet_delete_ne _ _ _ hmk] at hpos
              exact h mkt pos hpos
          · intro mkt pos hpos
            by_cases hmk : mkt = o.market
            · subst hmk
              rw [alistGet_set_self] at hpos
              obtain rfl := Option.some.inj hpos
              simp only []
              linarith [h5]
            · rw [alistGet_set_ne _ _ _ _ hmk] at hpos
              exact h mkt pos hpos

theorem positiveVolumes_applyOps (ops : List LedgerOp) :
    ∀ s : PMState, PositiveVolumes s → PositiveVolumes (applyOps s ops) := by
  induction ops with
  | nil => intro s h; exact h
  | cons op tl ih =>
    intro s h
    refine ih _ ?_
    cases op with
    | updatePrice m p => exact positiveVolumes_updateMarketPrice s m p h
    | trade o c => exact positiveVolumes_recordTrade s o c h

/-- Claim C8 (confirmed) — position-absence invariant: from a reset ledger,
every sequence of `updateMarketPrice` / `recordTrade` operations leads to a
state in which every recorded position has strictly positive volume; and an
accepted sell that brings the held volume to or below the epsilon `1e-8`
removes the position record entirely. -/
theorem position_absence_invariant (ib f : ℚ) :
    (∀ ops : List LedgerOp, PositiveVolumes (applyOps (reset ib f) ops)) ∧
    (∀ (s : PMState) (o : BacktestOrder) (c : BacktestCandleData)
      (pos : BacktestPosition) (t : BacktestTrade) (s' : PMState),
      o.side = OrderSide.ask → alistGet s.positions o.market = some pos →
      recordTrade s o c = (some t, s') →
      pos.volume - o.volume ≤ 1/100000000 →
      alistGet s'.positions o.market = none) := by
  constructor
  · intro ops
    refine positiveVolumes_applyOps ops _ ?_
    intro mkt pos hpos
    simp [reset, alistGet] at hpos
  · intro s o c pos t s' hask hpos hrec heps
    unfold recordTrade at hrec
    rcases hop : orderPrice o c with _ | price
    · rw [hop] at hrec; simp at hrec
    · rw [hop] at hrec
      simp only [hask] at hrec
      by_cases h1 : o.volume ≤ 0 ∨ price ≤ 0
      · rw [if_pos h1] at hrec; simp at hrec
      · rw [if_neg h1] at hrec
        rw [hpos] at hrec
        simp only [] at hrec
        by_cases h2 : pos.volume < o.volume
        · rw [if_pos h2] at hrec; simp at hrec
        · rw [if_neg h2, if_pos heps] at hrec
          simp only [Prod.mk.injEq] at hrec
          obtain ⟨-, hs⟩ := hrec
          subst hs
          exact alistGet_delete_self _ _

/-- Witness for C8: after a buy of 2 units at 50 and a price mark at 55 the
recorded position has positive volume; a full sell of the 2 units (bringing
the volume to 0 ≤ 1e-8) removes the position record entirely. -/
theorem position_absence_invariant_witness :
    alistGet (applyOps (reset 1000 0)
      [LedgerOp.trade ⟨"KRW-BTC", OrderSide.bid, OrderType.limit, 2, some 50, some 1⟩
        { market := "KRW-BTC", trade_price := 50, timestamp := 3,
          candle_acc_trade_volume := 1 },
       LedgerOp.updatePrice "KRW-BTC" 55]).positions "KRW-BTC" =
      some ⟨"KRW-BTC", 2, 50, some 55, some 110, some 10, some (1/10)⟩ ∧
    (0:ℚ) < (⟨"KRW-BTC", 2, 50, some 55, some 110, some 10,
      some (1/10)⟩ : BacktestPosition).volume ∧
    alistGet (recordTrade
      ⟨1000, 900, 0, [("KRW-BTC", ⟨"KRW-BTC", 2, 50, some 55, some 110, some 10, some (1/10)⟩)],
        [⟨1, "KRW-BTC", OrderSide.bid, OrderType.limit, 50, 2, 100, 0, 3, none⟩],
        [("KRW-BTC", 55)]⟩
      ⟨"KRW-BTC", OrderSide.ask, OrderType.limit, 2, some 60, some 2⟩
      { market := "KRW-BTC", trade_price := 60, timestamp := 9,
        candle_acc_trade_volume := 1 }).2.positions "KRW-BTC" = none := by
  have h1 : alistGet (applyOps (reset 1000 0)
      [LedgerOp.trade ⟨"KRW-BTC", OrderSide.bid, OrderType.limit, 2, some 50, some 1⟩
        { market := "KRW-BTC", trade_price := 50, timestamp := 3,
          candle_acc_trade_volume := 1 },
       LedgerOp.updatePrice "KRW-BTC" 55]).positions "KRW-BTC" =
      some ⟨"KRW-BTC", 2, 50, some 55, some 110, some 10, some (1/10)⟩ := by
    norm_num [applyOps, applyOp, List.foldl, recordTrade, orderPrice,
      updateMarketPrice, reset, alistGet, alistSet]
  have hrec : recordTrade
      ⟨1000, 900, 0, [("KRW-BTC", ⟨"KRW-BTC", 2, 50, some 55, some 110, some 10, some (1/10)⟩)],
        [⟨1, "KRW-BTC", OrderSide.bid, OrderType.limit, 50, 2, 100, 0, 3, none⟩],
        [("KRW-BTC", 55)]⟩
      ⟨"KRW-BTC", OrderSide.ask, OrderType.limit, 2, some 60, some 2⟩
      { market := "KRW-BTC", trade_price := 60, timestamp := 9,
        candle_acc_trade_volume := 1 } =
      (some ⟨2, "KRW-BTC", OrderSide.ask, OrderType.limit, 60, 2, 120, 0, 9, some 20⟩,
        ⟨1000, 1020, 0, [],
          [⟨1, "KRW-BTC", OrderSide.bid, OrderType.limit, 50, 2, 100, 0, 3, none⟩,
           ⟨2, "KRW-BTC", OrderSide.ask, OrderType.limit, 60, 2, 120, 0, 9, some 20⟩],
          [("KRW-BTC", 55)]⟩) := by
    norm_num [recordTrade, orderPrice, alistGet, alistDelete]
  refine ⟨h1, ?_, ?_⟩
  · have hpv := (position_absence_invariant 1000 0).1
      [LedgerOp.trade ⟨"KRW-BTC", OrderSide.bid, OrderType.limit, 2, some 50, some 1⟩
        { market := "KRW-BTC", trade_price := 50, timestamp := 3,
          candle_acc_trade_volume := 1 },
       LedgerOp.updatePrice "KRW-BTC" 55]
    exact hpv "KRW-BTC" ⟨"KRW-BTC", 2, 50, some 55, some 110, some 10, some (1/10)⟩ h1
  · rw [hrec]
    exact (position_absence_invariant 1000 0).2 _ _ _
      ⟨"KRW-BTC", 2, 50, some 55, some 110, some 10, some (1/10)⟩ _ _
      rfl (by norm_num [alistGet]) hrec (by norm_num)

/-- Claim C9 (confirmed) — score-linear new-buy sizing: for a non-pyramiding
buy signal, with at least the minimum order amount (5000) of cash available,
the allocator returns exactly the linear map of the score onto
[5000, max(5000, cash*25%)]: minimum at score ≤ 0, maximum at score ≥ 100,
linear interpolation in between. -/
theorem newBuy_sizing_score_linear (market : String) (signal : StrategyResult)
    (krwBalance : ℚ) (position : Option Position)
    (hnp : ∀ n, signal.reason ≠ SigReason.pyramiding n)
    (hbal : 5000 ≤ krwBalance) :
    RiskManager.determineInvestmentAmountForBuy market signal krwBalance position =
      some (if signal.score ≤ 0 then 5000
        else if signal.score ≥ 100 then max 5000 (krwBalance * (25/100))
        else 5000 + (max 5000 (krwBalance * (25/100)) - 5000) * (signal.score / 100)) := by
  have hpyr : (match signal.reason with
      | SigReason.pyramiding _ => true
      | _ => false) = false := by
    cases hr : signal.reason <;> first | rfl | exact absurd hr (hnp _)
  unfold RiskManager.determineInvestmentAmountForBuy
  rw [hpyr]
  simp only [Bool.false_eq_true, if_false]
  have hM5 : (5000 : ℚ) ≤ max 5000 (krwBalance * (25/100)) := le_max_left _ _
  have hMk : max 5000 (krwBalance * (25/100)) ≤ krwBalance := by
    apply max_le hbal
    nlinarith
  by_cases h0 : signal.score ≤ 0
  · rw [if_pos h0]
    rw [min_eq_left hM5]
    rw [if_neg (not_lt.mpr hbal)]
    rw [if_neg (show ¬ (5000:ℚ) < 5000 by norm_num)]
  · rw [if_neg h0]
    by_cases h100 : signal.score ≥ 100
    · rw [if_pos h100]
      rw [min_self]
      rw [if_neg (not_lt.mpr hMk)]
      rw [if_neg (not_lt.mpr hM5)]
    · rw [if_neg h100]
      push_neg at h0 h100
      have hbase_ge : (5000 : ℚ) ≤
          5000 + (max 5000 (krwBalance * (25/100)) - 5000) * (signal.score / 100) := by
        have : (0:ℚ) ≤ (max 5000 (krwBalance * (25/100)) - 5000) * (signal.score / 100) := by
          apply mul_nonneg (by linarith) (by positivity)
        linarith
      have hbase_le : 5000 + (max 5000 (krwBalance * (25/100)) - 5000) * (signal.score / 100) ≤
          max 5000 (krwBalance * (25/100)) := by
        nlinarith [hM5]
      rw [min_eq_left hbase_le]
      rw [if_neg (not_lt.mpr (le_trans hbase_le hMk))]
      rw [if_neg (not_lt.mpr hbase_ge)]

/-- Witness for C9: score 50 with cash 100000 yields exactly the midpoint
5000 + (25000 - 5000) * 50/100 = 15000. -/
theorem newBuy_sizing_score_linear_witness :
    RiskManager.determineInvestmentAmountForBuy "KRW-BTC"
      ⟨TradeAction.buy, "KRW-BTC", SigReason.newBuyShortTerm, some 100, none, 50⟩
      100000 none = some 15000 := by
  have h := newBuy_sizing_score_linear "KRW-BTC"
    ⟨TradeAction.buy, "KRW-BTC", SigReason.newBuyShortTerm, some 100, none, 50⟩
    100000 none (by intro n h; simp at h) (by norm_num)
  rw [h]
  norm_num

/-- Claim C2 (confirmed) — indicator-driven sell: in the `generateSignal`
variant carrying the indicator-sell branch (appended in data-manager.ts), for
every tick where a position is held, neither the stop-loss nor the take-profit
condition holds, and the computed sell-pressure score reaches the configured
sell threshold, the decision is a sell (carrying the full position volume). -/
theorem indicator_sell_fires (market : String) (closePrices volumes : List ℚ)
    (pos : Position) (cfgIn : StrategyConfig)
    (hvol : pos.volume > 0)
    (hlen : ¬ closePrices.length <
      max ((mergeStrategyConfigDM cfgIn).bollingerPeriod.getD 20)
        (max ((mergeStrategyConfigDM cfgIn).emaLongPeriod.getD 20)
          ((mergeStrategyConfigDM cfgIn).rsiPeriod.getD 14 + 1)))
    (hsl : ¬ closePrices.headD 0 ≤
      pos.entryPrice * (1 - (mergeStrategyConfigDM cfgIn).stopLossPercentShortTerm.getD (3/2) / 100))
    (htp : ¬ closePrices.headD 0 ≥
      pos.entryPrice * (1 + (mergeStrategyConfigDM cfgIn).profitTargetPercentShortTerm.getD 3 / 100))
    (hscore : (ScoreCalculator.calculateSellPressureScore (closePrices.headD 0)
        (calculateBollingerBands closePrices
          ((mergeStrategyConfigDM cfgIn).bollingerPeriod.getD 20)
          ((mergeStrategyConfigDM cfgIn).bollingerStdDev.getD 2))
        (calculateEMA closePrices.reverse ((mergeStrategyConfigDM cfgIn).emaShortPeriod.getD 5))
        (calculateEMA closePrices.reverse ((mergeStrategyConfigDM cfgIn).emaMidPeriod.getD 10))
        (calculateRSI closePrices ((mergeStrategyConfigDM cfgIn).rsiPeriod.getD 14))
        (mergeStrategyConfigDM cfgIn)
        (some ((closePrices.headD 0 / pos.entryPrice - 1) * 100)) none).score ≥
      (mergeStrategyConfigDM cfgIn).sellScoreThresholdShortTerm.getD 75) :
    DataManagerVariant.generateSignal market closePrices volumes (some pos) cfgIn =
      ⟨TradeAction.sell, market, SigReason.indicatorSell, some (closePrices.headD 0),
        some pos.volume,
        (ScoreCalculator.calculateSellPressureScore (closePrices.headD 0)
          (calculateBollingerBands closePrices
            ((mergeStrategyConfigDM cfgIn).bollingerPeriod.getD 20)
            ((mergeStrategyConfigDM cfgIn).bollingerStdDev.getD 2))
          (calculateEMA closePrices.reverse ((mergeStrategyConfigDM cfgIn).emaShortPeriod.getD 5))
          (calculateEMA closePrices.reverse ((mergeStrategyConfigDM cfgIn).emaMidPeriod.getD 10))
          (calculateRSI closePrices ((mergeStrategyConfigDM cfgIn).rsiPeriod.getD 14))
          (mergeStrategyConfigDM cfgIn)
          (some ((closePrices.headD 0 / pos.entryPrice - 1) * 100)) none).score⟩ := by
  unfold DataManagerVariant.generateSignal
  simp only []
  rw [if_neg hlen]
  rw [if_pos hvol]
  rw [if_neg hsl]
  rw [if_neg htp]
  rw [if_pos hscore]

/-- Witness for C2: constant price 102.5 against an entry at 100 (so neither
the 1.5% stop-loss nor the 3% take-profit fires); constant prices give RSI 100
(overbought, sub-score 60), which meets a configured sell threshold of 50, so
the decision is a sell of the full held volume. -/
theorem indicator_sell_fires_witness :
    (DataManagerVariant.generateSignal "KRW-BTC" [205/2, 205/2] [1, 1]
      (some ⟨"KRW-BTC", 100, 4, none⟩)
      { bollingerPeriod := some 2, emaLongPeriod := some 2, rsiPeriod := some 1,
        sellScoreThresholdShortTerm := some 50 }).action = TradeAction.sell ∧
    (DataManagerVariant.generateSignal "KRW-BTC" [205/2, 205/2] [1, 1]
      (some ⟨"KRW-BTC", 100, 4, none⟩)
      { bollingerPeriod := some 2, emaLongPeriod := some 2, rsiPeriod := some 1,
        sellScoreThresholdShortTerm := some 50 }).volume = some 4 := by
  have h := indicator_sell_fires "KRW-BTC" [205/2, 205/2] [1, 1]
    ⟨"KRW-BTC", 100, 4, none⟩
    { bollingerPeriod := some 2, emaLongPeriod := some 2, rsiPeriod := some 1,
      sellScoreThresholdShortTerm := some 50 }
    (by norm_num)
    (by norm_num [mergeStrategyConfigDM, mergeStrategyConfigSG, defaultStrategyConfig])
    (by norm_num [mergeStrategyConfigDM, mergeStrategyConfigSG, defaultStrategyConfig])
    (by norm_num [mergeStrategyConfigDM, mergeStrategyConfigSG, defaultStrategyConfig])
    (by norm_num [mergeStrategyConfigDM, mergeStrategyConfigSG, defaultStrategyConfig,
      defaultConfigWeights, mergeWeights, ScoreCalculator.calculateSellPressureScore,
      IndicatorCalculator.calculateRSI, IndicatorCalculator.calculateEMA,
      IndicatorCalculator.calculateBollingerBands, jsOr, sqrtQ_zero])
  rw [h]
  exact ⟨rfl, rfl⟩

/-- Claim C1, counterexample: at a tick where the stop-loss condition holds
(price 90 ≤ 98.5 = entry 100 × (1 - 1.5%)), with pyramiding enabled and a
pyramiding-score boost configured, `generateSignal` returns a pyramiding BUY
instead of the stop-loss sell — the pyramiding branch pre-empts the stop-loss
branch. -/
theorem stopLoss_preempted_by_pyramiding_buy :
    (90 : ℚ) ≤ 100 * (1 - (3/2) / 100) ∧
    (SignalGenerator.generateSignal "KRW-BTC" [90, 90] [1, 1]
      (some ⟨"KRW-BTC", 100, 1, none⟩)
      { bollingerPeriod := some 2, emaLongPeriod := some 2, rsiPeriod := some 1,
        allowPyramiding := some true,
        weights := some { pyramidingSignalBoost := some 20 } }).action =
      TradeAction.buy := by
  constructor
  · norm_num
  · norm_num [SignalGenerator.generateSignal, SignalGenerator.handlePyramidingSignal,
      mergeStrategyConfigSG, defaultStrategyConfig, defaultConfigWeights, mergeWeights,
      IndicatorCalculator.calculateRSI, IndicatorCalculator.calculateMACD, jsOr, jsOrN]

/-- Claim C1 (amended) — stop-loss dominance holds whenever the pyramiding
branch is out of the way: if a position is held, the current price is at or
below `entryPrice*(1 - stopLossPct/100)`, and either pyramiding is disabled or
the pyramiding attempt does not fire, then `generateSignal` returns a sell
with the stop-loss reason and the fixed top score 100 (without an explicit
volume field — full liquidation is left to the caller). -/
theorem stopLoss_sell_when_no_pyramiding (market : String)
    (closePrices volumes : List ℚ) (pos : Position) (cfgIn : StrategyConfig)
    (hvol : pos.volume > 0)
    (hlen : ¬ closePrices.length <
      max ((mergeStrategyConfigSG cfgIn).bollingerPeriod.getD 20)
        (max ((mergeStrategyConfigSG cfgIn).emaLongPeriod.getD 20)
          ((mergeStrategyConfigSG cfgIn).rsiPeriod.getD 14 + 1)))
    (hsl : closePrices.headD 0 ≤
      pos.entryPrice * (1 - (mergeStrategyConfigSG cfgIn).stopLossPercentShortTerm.getD (3/2) / 100))
    (hnp : (mergeStrategyConfigSG cfgIn).allowPyramiding.getD false = false ∨
      SignalGenerator.handlePyramidingSignal market (closePrices.headD 0)
        (calculateRSI closePrices ((mergeStrategyConfigSG cfgIn).rsiPeriod.getD 14))
        (calculateMACD closePrices ((mergeStrategyConfigSG cfgIn).macdShortPeriod.getD 12)
          ((mergeStrategyConfigSG cfgIn).macdLongPeriod.getD 26)
          ((mergeStrategyConfigSG cfgIn).macdSignalPeriod.getD 9))
        pos (mergeStrategyConfigSG cfgIn)
        ((mergeStrategyConfigSG cfgIn).buyScoreThresholdShortTerm.getD 80) 0 = none) :
    SignalGenerator.generateSignal market closePrices volumes (some pos) cfgIn =
      ⟨TradeAction.sell, market, SigReason.stopLossShortTerm,
        some (closePrices.headD 0), none, 100⟩ := by
  unfold SignalGenerator.generateSignal
  simp only []
  rw [if_neg hlen]
  rw [if_pos hvol]
  rw [if_pos hsl]
  rcases hnp with h | h
  · rw [h]
    simp only [Bool.false_eq_true, if_false]
  · cases hap : (mergeStrategyConfigSG cfgIn).allowPyramiding.getD false
    · simp only [Bool.false_eq_true, if_false]
    · rw [if_pos rfl, h]

/-- Witness for C1 (amended): with pyramiding disabled (the default), the same
stop-loss tick yields the sell with score 100. -/
theorem stopLoss_sell_when_no_pyramiding_witness :
    SignalGenerator.generateSignal "KRW-BTC" [90, 90] [1, 1]
      (some ⟨"KRW-BTC", 100, 1, none⟩)
      { bollingerPeriod := some 2, emaLongPeriod := some 2, rsiPeriod := some 1 } =
      ⟨TradeAction.sell, "KRW-BTC", SigReason.stopLossShortTerm, some 90, none, 100⟩ := by
  have h := stopLoss_sell_when_no_pyramiding "KRW-BTC" [90, 90] [1, 1]
    ⟨"KRW-BTC", 100, 1, none⟩
    { bollingerPeriod := some 2, emaLongPeriod := some 2, rsiPeriod := some 1 }
    (by norm_num)
    (by norm_num [mergeStrategyConfigSG, defaultStrategyConfig])
    (by norm_num [mergeStrategyConfigSG, defaultStrategyConfig])
    (Or.inl (by norm_num [mergeStrategyConfigSG, defaultStrategyConfig]))
  rw [h]
  norm_num

/-- A trade record with the (randomly generated) uuid field erased. -/
structure BacktestTradeData where
  market : String
  side : OrderSide
  orderType : OrderType
  price : ℚ
  volume : ℚ
  amount : ℚ
  fee : ℚ
  timestamp : ℕ
  profit : Option ℚ

def eraseTrade (t : BacktestTrade) : BacktestTradeData :=
  ⟨t.market, t.side, t.orderType, t.price, t.volume, t.amount, t.fee,
    t.timestamp, t.profit⟩

/-- A ledger state with trade uuids erased. -/
structure PMErased where
  initialBalance : ℚ
  currentBalance : ℚ
  feeRate : ℚ
  positions : List (String × BacktestPosition)
  trades : List BacktestTradeData
  marketPrices : List (String × ℚ)

def erasePM (s : PMState) : PMErased :=
  ⟨s.initialBalance, s.currentBalance, s.feeRate, s.positions,
    s.trades.map eraseTrade, s.marketPrices⟩

/-- A simulation state with trade uuids erased. -/
structure SimErased where
  pm : PMErased
  buySignals : ℕ
  sellSignals : ℕ
  holdSignals : ℕ
  peakBalance : ℚ
  maxDrawdown : ℚ
  simulatedCandlesCount : ℕ
  uuidIdx : ℕ

def eraseSim (s : Backtester.SimState) : SimErased :=
  ⟨erasePM s.pm, s.buySignals, s.sellSignals, s.holdSignals, s.peakBalance,
    s.maxDrawdown, s.simulatedCandlesCount, s.uuidIdx⟩

/-- `recordTrade` is uuid-oblivious: on states that agree except for trade
uuids, and orders that agree except for their uuid, it produces the same
result up to trade uuids. -/
theorem recordTrade_erase (ib bal f : ℚ) (pos : List (String × BacktestPosition))
    (tr1 tr2 : List BacktestTrade) (mp : List (String × ℚ))
    (mkt : String) (side : OrderSide) (ot : OrderType) (vol : ℚ) (pr : Option ℚ)
    (u1 u2 : Option ℕ) (c : BacktestCandleData)
    (htr : tr1.map eraseTrade = tr2.map eraseTrade) :
    (recordTrade ⟨ib, bal, f, pos, tr1, mp⟩ ⟨mkt, side, ot, vol, pr, u1⟩ c).1.map
        eraseTrade =
      (recordTrade ⟨ib, bal, f, pos, tr2, mp⟩ ⟨mkt, side, ot, vol, pr, u2⟩ c).1.map
        eraseTrade ∧
    erasePM (recordTrade ⟨ib, bal, f, pos, tr1, mp⟩ ⟨mkt, side, ot, vol, pr, u1⟩ c).2 =
      erasePM (recordTrade ⟨ib, bal, f, pos, tr2, mp⟩ ⟨mkt, side, ot, vol, pr, u2⟩ c).2 := by
  unfold recordTrade
  have ho : orderPrice ⟨mkt, side, ot, vol, pr, u2⟩ c =
      orderPrice ⟨mkt, side, ot, vol, pr, u1⟩ c := rfl
  rw [ho]
  rcases hp : orderPrice ⟨mkt, side, ot, vol, pr, u1⟩ c with _ | price
  · simp [erasePM, htr]
  · simp only []
    by_cases h1 : vol ≤ 0 ∨ price ≤ 0
    · simp only [if_pos h1]
      simp [erasePM, htr]
    · simp only [if_neg h1]
      cases side
      · simp only []
        split_ifs with h2
        · simp [erasePM, htr]
        · simp [erasePM, eraseTrade, htr, List.map_append]
      · simp only []
        rcases halist : alistGet pos mkt with _ | position
        · simp [erasePM, htr]
        · simp only []
          split_ifs with h2 h3 h4
          · simp [erasePM, htr]
          · simp [erasePM, eraseTrade, htr, List.map_append]
          · simp [erasePM, eraseTrade, htr, List.map_append]
          · simp [erasePM, eraseTrade, htr, List.map_append]
          · simp [erasePM, eraseTrade, htr, List.map_append]

/-- `getTotalAssetValue` never reads the trade log. -/
theorem getTotalAssetValue_trades_irrel (ib bal f : ℚ)
    (pos : List (String × BacktestPosition)) (tr tr' : List BacktestTrade)
    (mp : List (String × ℚ)) :
    getTotalAssetValue ⟨ib, bal, f, pos, tr, mp⟩ =
      getTotalAssetValue ⟨ib, bal, f, pos, tr', mp⟩ := rfl

/-- States equal up to trade uuids have the same total asset value. -/
theorem getTotalAssetValue_erase (s1 s2 : PMState) (h : erasePM s1 = erasePM s2) :
    getTotalAssetValue s1 = getTotalAssetValue s2 := by
  obtain ⟨ib1, bal1, f1, pos1, tr1, mp1⟩ := s1
  obtain ⟨ib2, bal2, f2, pos2, tr2, mp2⟩ := s2
  simp only [erasePM, PMErased.mk.injEq] at h
  obtain ⟨h1, h2, h3, h4, -, h6⟩ := h
  subst h1 h2 h3 h4 h6
  rfl

/-- The drawdown bookkeeping is uuid-oblivious. -/
theorem updateDrawdown_erase (s1 s2 : Backtester.SimState)
    (h : eraseSim s1 = eraseSim s2) :
    eraseSim (Backtester.updateDrawdown s1) = eraseSim (Backtester.updateDrawdown s2) := by
  obtain ⟨pm1, b1, se1, hd1, pk1, dd1, sc1, ui1⟩ := s1
  obtain ⟨pm2, b2, se2, hd2, pk2, dd2, sc2, ui2⟩ := s2
  simp only [eraseSim, SimErased.mk.injEq] at h
  obtain ⟨hpm, hb, hse, hhd, hpk, hdd, hsc, hui⟩ := h
  subst hb hse hhd hpk hdd hsc hui
  have hG : getTotalAssetValue pm1 = getTotalAssetValue pm2 :=
    getTotalAssetValue_erase _ _ hpm
  simp only [Backtester.updateDrawdown, eraseSim, SimErased.mk.injEq, hG]
  simp [hpm]

/-- One replay-loop iteration is uuid-oblivious: on simulation states equal up
to trade uuids, `step` with any two entropy streams produces states equal up
to trade uuids. -/
theorem step_erase_gen (A : List BacktestCandleData) (mkt : String)
    (cfg : BacktestStrategyConfig) (u1 u2 : ℕ → ℕ) (ic : ℕ × BacktestCandleData)
    (s1 s2 : Backtester.SimState) (h : eraseSim s1 = eraseSim s2) :
    eraseSim (Backtester.step A mkt cfg u1 s1 ic) =
      eraseSim (Backtester.step A mkt cfg u2 s2 ic) := by
  obtain ⟨i, c⟩ := ic
  obtain ⟨⟨ib1, bal1, f1, pos1, tr1, mp1⟩, b1, se1, hd1, pk1, dd1, sc1, ui1⟩ := s1
  obtain ⟨⟨ib2, bal2, f2, pos2, tr2, mp2⟩, b2, se2, hd2, pk2, dd2, sc2, ui2⟩ := s2
  simp only [eraseSim, erasePM, SimErased.mk.injEq, PMErased.mk.injEq] at h
  obtain ⟨⟨hib, hbal, hf, hpos, htr, hmp⟩, hb, hse, hhd, hpk, hdd, hsc, hui⟩ := h
  subst hib hbal hf hpos hmp hb hse hhd hpk hdd hsc hui
  simp only [Backtester.step, MockOrderExecutor.createOrder, Option.getD_some]
  obtain ⟨P, M, h1, h2⟩ : ∃ P M,
      updateMarketPrice ⟨ib1, bal1, f1, pos1, tr1, mp1⟩ mkt c.trade_price =
        ⟨ib1, bal1, f1, P, tr1, M⟩ ∧
      updateMarketPrice ⟨ib1, bal1, f1, pos1, tr2, mp1⟩ mkt c.trade_price =
        ⟨ib1, bal1, f1, P, tr2, M⟩ := ⟨_, _, rfl, rfl⟩
  rw [h1, h2]
  by_cases hw : i < Backtester.minCandlesForIndicators cfg - 1
  · simp only [if_pos hw]
    simp [eraseSim, erasePM, htr]
  · simp only [if_neg hw]
    set sig := BacktestStrategyOrchestrator.determineSignalForMarket A mkt cfg i
      (alistGet P mkt) with hsig
    by_cases hbuy : sig.action = TradeAction.buy
    · simp only [if_pos hbuy]
      have hv : Backtester.calculateTradeVolume ⟨ib1, bal1, f1, P, tr2, M⟩ mkt
          c.trade_price TradeAction.buy cfg =
          Backtester.calculateTradeVolume ⟨ib1, bal1, f1, P, tr1, M⟩ mkt
          c.trade_price TradeAction.buy cfg := rfl
      rw [hv]
      set V := (match sig.volume with
        | some v => if v ≤ 0 then Backtester.calculateTradeVolume
            ⟨ib1, bal1, f1, P, tr1, M⟩ mkt c.trade_price TradeAction.buy cfg
          else v
        | none => Backtester.calculateTradeVolume ⟨ib1, bal1, f1, P, tr1, M⟩ mkt
            c.trade_price TradeAction.buy cfg) with hV
      by_cases hVpos : V > 0
      · simp only [if_pos hVpos]
        have hre := recordTrade_erase ib1 bal1 f1 P tr1 tr2 M mkt OrderSide.bid
          (if Backtester.jsTruthyQ sig.price then OrderType.limit else OrderType.market) V
          sig.price (some (u1 ui1)) (some (u2 ui1)) c htr
        refine updateDrawdown_erase _ _ ?_
        simp [eraseSim, SimErased.mk.injEq, hre.2]
      · simp only [if_neg hVpos]
        refine updateDrawdown_erase _ _ ?_
        simp [eraseSim, erasePM, htr]
    · simp only [if_neg hbuy]
      by_cases hsell : sig.action = TradeAction.sell
      · simp only [if_pos hsell]
        rcases hcp : alistGet P mkt with _ | cp
        · refine updateDrawdown_erase _ _ ?_
          simp [eraseSim, erasePM, htr]
        · by_cases hcv : cp.volume ≤ 0
          · simp only [if_pos hcv]
            refine updateDrawdown_erase _ _ ?_
            simp [eraseSim, erasePM, htr]
          · simp only [if_neg hcv]
            have hv : Backtester.calculateTradeVolume ⟨ib1, bal1, f1, P, tr2, M⟩ mkt
                c.trade_price TradeAction.sell cfg =
                Backtester.calculateTradeVolume ⟨ib1, bal1, f1, P, tr1, M⟩ mkt
                c.trade_price TradeAction.sell cfg := rfl
            rw [hv]
            set V0 := (match sig.volume with
              | some v => if v ≤ 0 then Backtester.calculateTradeVolume
                  ⟨ib1, bal1, f1, P, tr1, M⟩ mkt c.trade_price TradeAction.sell cfg
                else v
              | none => Backtester.calculateTradeVolume ⟨ib1, bal1, f1, P, tr1, M⟩ mkt
                  c.trade_price TradeAction.sell cfg) with hV0
            set V := if V0 > cp.volume then cp.volume else V0 with hV
            by_cases hVpos : V > 0
            · simp only [if_pos hVpos]
              have hre := recordTrade_erase ib1 bal1 f1 P tr1 tr2 M mkt OrderSide.ask
                (if Backtester.jsTruthyQ sig.price then OrderType.limit else OrderType.market) V
                sig.price (some (u1 ui1)) (some (u2 ui1)) c htr
              refine updateDrawdown_erase _ _ ?_
              simp [eraseSim, SimErased.mk.injEq, hre.2]
            · simp only [if_neg hVpos]
              refine updateDrawdown_erase _ _ ?_
              simp [eraseSim, erasePM, htr]
      · simp only [if_neg hsell]
        refine updateDrawdown_erase _ _ ?_
        simp [eraseSim, erasePM, htr]

/-- Folding the replay loop preserves equality up to trade uuids. -/
theorem foldl_step_erase (A : List BacktestCandleData) (mkt : String)
    (cfg : BacktestStrategyConfig) (u1 u2 : ℕ → ℕ)
    (l : List (ℕ × BacktestCandleData)) (s1 s2 : Backtester.SimState)
    (h : eraseSim s1 = eraseSim s2) :
    eraseSim (l.foldl (Backtester.step A mkt cfg u1) s1) =
      eraseSim (l.foldl (Backtester.step A mkt cfg u2) s2) := by
  induction l generalizing s1 s2 with
  | nil => exact h
  | cons a l ih => exact ih _ _ (step_erase_gen A mkt cfg u1 u2 a s1 s2 h)

/-- Filtering on the (uuid-independent) profit field gives equal counts on
trade logs equal up to uuids. -/
theorem filter_profit_length_erase (g : Option ℚ → Bool) :
    ∀ l1 l2 : List BacktestTrade, l1.map eraseTrade = l2.map eraseTrade →
      (l1.filter (fun t => g t.profit)).length =
        (l2.filter (fun t => g t.profit)).length := by
  intro l1
  induction l1 with
  | nil =>
    intro l2 h
    cases l2 with
    | nil => rfl
    | cons b l2 => simp at h
  | cons a l1 ih =>
    intro l2 h
    cases l2 with
    | nil => simp at h
    | cons b l2 =>
      simp only [List.map_cons, List.cons.injEq] at h
      have hp : a.profit = b.profit := congrArg BacktestTradeData.profit h.1
      simp only [List.filter_cons, hp]
      cases g b.profit <;> simp [ih l2 h.2]

/-- A run result with every trade's uuid erased. -/
structure RunResultErased where
  market : String
  initialBalance : ℚ
  finalBalance : ℚ
  totalProfit : ℚ
  totalProfitRate : ℚ
  trades : List BacktestTradeData
  winCount : ℕ
  lossCount : ℕ
  winRate : ℚ
  maxDrawdown : ℚ
  buySignals : ℕ
  sellSignals : ℕ
  holdSignals : ℕ
  totalCandles : ℕ
  simulatedCandles : ℕ

def eraseRun (r : Backtester.BacktestRunResult) : RunResultErased :=
  ⟨r.market, r.initialBalance, r.finalBalance, r.totalProfit, r.totalProfitRate,
    r.trades.map eraseTrade, r.winCount, r.lossCount, r.winRate, r.maxDrawdown,
    r.buySignals, r.sellSignals, r.holdSignals, r.totalCandles, r.simulatedCandles⟩

/-- Claim C5 (amended): the replay loop is deterministic up to the randomly
generated trade uuids — for a fixed candle series, market and strategy config,
any two runs of `Backtester.run` (i.e. any two `uuidv4` entropy streams)
produce the same `RunResult`, every trade field included, except for each
trade's `uuid`. -/
theorem run_deterministic_up_to_uuid (candles : List BacktestCandleData)
    (mkt : String) (cfg : BacktestStrategyConfig) (u1 u2 : ℕ → ℕ) :
    (Backtester.run candles mkt cfg u1).map eraseRun =
      (Backtester.run candles mkt cfg u2).map eraseRun := by
  simp only [Backtester.run]
  by_cases h0 : candles.length = 0
  · simp only [if_pos h0]
  · simp only [if_neg h0]
    set ib := cfg.initialBalance.getD 1000000 with hib
    set s0 : Backtester.SimState :=
      ⟨reset ib (cfg.feeRate.getD (1/2000)), 0, 0, 0, ib, 0, 0, 0⟩ with hs0
    set F1 := candles.enum.foldl (Backtester.step candles mkt cfg u1) s0 with hF1
    set F2 := candles.enum.foldl (Backtester.step candles mkt cfg u2) s0 with hF2
    have hES : eraseSim F1 = eraseSim F2 :=
      foldl_step_erase candles mkt cfg u1 u2 candles.enum s0 s0 rfl
    have hpm : erasePM F1.pm = erasePM F2.pm := congrArg SimErased.pm hES
    have htr : F1.pm.trades.map eraseTrade = F2.pm.trades.map eraseTrade :=
      congrArg PMErased.trades hpm
    have hG : getTotalAssetValue F1.pm = getTotalAssetValue F2.pm :=
      getTotalAssetValue_erase _ _ hpm
    have hwc : (F1.pm.trades.filter Backtester.isWinTrade).length =
        (F2.pm.trades.filter Backtester.isWinTrade).length :=
      filter_profit_length_erase
        (fun o => match o with | some p => decide (p > 0) | none => false)
        F1.pm.trades F2.pm.trades htr
    have hlc : (F1.pm.trades.filter Backtester.isLossTrade).length =
        (F2.pm.trades.filter Backtester.isLossTrade).length :=
      filter_profit_length_erase
        (fun o => match o with | some p => decide (p < 0) | none => false)
        F1.pm.trades F2.pm.trades htr
    have hmd : F1.maxDrawdown = F2.maxDrawdown := congrArg SimErased.maxDrawdown hES
    have hbs : F1.buySignals = F2.buySignals := congrArg SimErased.buySignals hES
    have hss : F1.sellSignals = F2.sellSignals := congrArg SimErased.sellSignals hES
    have hhs : F1.holdSignals = F2.holdSignals := congrArg SimErased.holdSignals hES
    have hsc : F1.simulatedCandlesCount = F2.simulatedCandlesCount :=
      congrArg SimErased.simulatedCandlesCount hES
    simp only [Option.map_some', eraseRun]
    rw [hG, htr, hwc, hlc, hmd, hbs, hss, hhs, hsc]

/-- A 20-candle flat series at price 100 (volume 10). -/
def candleC5 : BacktestCandleData :=
  { market := "KRW-BTC", trade_price := 100, timestamp := 7,
    candle_acc_trade_volume := 10 }

def candlesC5 : List BacktestCandleData :=
  [candleC5, candleC5, candleC5, candleC5, candleC5, candleC5, candleC5,
    candleC5, candleC5, candleC5, candleC5, candleC5, candleC5, candleC5,
    candleC5, candleC5, candleC5, candleC5, candleC5, candleC5]

/-- A run configuration under which the 20th candle triggers one buy. -/
def cfgC5 : BacktestStrategyConfig :=
  { candleCount := some 3
    bollingerPeriod := some 2
    rsiPeriod := some 1
    emaLongPeriod := some 2
    volumeSpikeMultiplier := some (1/2)
    buyScoreThresholdShortTerm := some 1
    feeRate := some (1/2000)
    initialBalance := some 2001000 }

theorem minCandlesC5 : Backtester.minCandlesForIndicators cfgC5 = 20 := by
  norm_num [Backtester.minCandlesForIndicators, cfgC5, jsOrN]

/-- During the warm-up prefix the replay loop only marks the price. -/
theorem stepC5_skip (u : ℕ → ℕ) (s : Backtester.SimState) (i : ℕ) (hi : i < 19) :
    Backtester.step candlesC5 "KRW-BTC" cfgC5 u s (i, candleC5) =
      { s with pm := updateMarketPrice s.pm "KRW-BTC" 100 } := by
  simp only [Backtester.step, minCandlesC5, candleC5]
  rw [if_pos (show i < 20 - 1 by omega)]

set_option maxHeartbeats 1000000 in
/-- At the 20th candle (flat series), the decision engine returns a buy at the
close, score 25 (volume-spike only). -/
theorem sigC5 :
    BacktestStrategyOrchestrator.determineSignalForMarket candlesC5 "KRW-BTC"
      cfgC5 19 none =
    ⟨TradeAction.buy, "KRW-BTC", some 100, none,
      some (BSReason.core SigReason.newBuyShortTerm), some 25⟩ := by
  norm_num +decide [BacktestStrategyOrchestrator.determineSignalForMarket,
    BacktestDataManager.getCandles,
    BacktestStrategyOrchestrator.convertToCoreStrategyConfig,
    BacktestStrategyOrchestrator.convertToCorePosition,
    candlesC5, candleC5, cfgC5,
    SignalGenerator.generateSignal, SignalGenerator.buyEvaluation,
    mergeStrategyConfigSG, mergeWeights, defaultStrategyConfig,
    defaultConfigWeights, ScoreCalculator.calculateBuyScore,
    IndicatorCalculator.calculateBollingerBands, IndicatorCalculator.calculateEMA,
    IndicatorCalculator.calculateRSI, IndicatorCalculator.calculateMACD,
    jsOr, jsOrN, sqrtQ_zero]

theorem volC5 :
    Backtester.calculateTradeVolume
      ⟨2001000, 2001000, 1/2000, [], [], [("KRW-BTC", 100)]⟩ "KRW-BTC" 100
      TradeAction.buy cfgC5 = 5000 := by
  norm_num [Backtester.calculateTradeVolume, cfgC5, jsOr, alistGet]

theorem recC5 (u : ℕ → ℕ) :
    recordTrade ⟨2001000, 2001000, 1/2000, [], [], [("KRW-BTC", 100)]⟩
      ⟨"KRW-BTC", OrderSide.bid, OrderType.limit, 5000, some 100, some (u 0)⟩
      candleC5 =
    (some ⟨u 0, "KRW-BTC", OrderSide.bid, OrderType.limit, 100, 5000, 500000,
        250, 7, none⟩,
      ⟨2001000, 1500750, 1/2000,
        [("KRW-BTC", ⟨"KRW-BTC", 5000, 100, none, none, none, none⟩)],
        [⟨u 0, "KRW-BTC", OrderSide.bid, OrderType.limit, 100, 5000, 500000,
          250, 7, none⟩],
        [("KRW-BTC", 100)]⟩) := by
  norm_num +decide [recordTrade, orderPrice, alistGet, alistSet, candleC5]

theorem umpC5 :
    updateMarketPrice ⟨2001000, 2001000, 1/2000, [], [], [("KRW-BTC", 100)]⟩
      "KRW-BTC" 100 =
    ⟨2001000, 2001000, 1/2000, [], [], [("KRW-BTC", 100)]⟩ := by
  simp +decide [updateMarketPrice, alistGet, alistSet]

theorem updateDrawdown_pm (s : Backtester.SimState) :
    (Backtester.updateDrawdown s).pm = s.pm := rfl

set_option maxHeartbeats 800000 in
/-- At the 20th candle the loop issues exactly one buy, whose uuid is the
first draw of the entropy stream. -/
theorem stepC5_final_trades (u : ℕ → ℕ) :
    (Backtester.step candlesC5 "KRW-BTC" cfgC5 u
        ⟨⟨2001000, 2001000, 1/2000, [], [], [("KRW-BTC", 100)]⟩,
          0, 0, 0, 2001000, 0, 0, 0⟩ (19, candleC5)).pm.trades =
      [⟨u 0, "KRW-BTC", OrderSide.bid, OrderType.limit, 100, 5000, 500000, 250,
        7, none⟩] := by
  have htp : candleC5.trade_price = 100 := rfl
  simp only [Backtester.step, htp, minCandlesC5]
  rw [if_neg (show ¬ ((19 : ℕ) < 20 - 1) by norm_num)]
  norm_num +decide [umpC5, sigC5, volC5, recC5 u, alistGet,
    MockOrderExecutor.createOrder, Backtester.jsTruthyQ]
  rw [updateDrawdown_pm]

theorem ump0C5 :
    updateMarketPrice ⟨2001000, 2001000, 1/2000, [], [], []⟩ "KRW-BTC" 100 =
    ⟨2001000, 2001000, 1/2000, [], [], [("KRW-BTC", 100)]⟩ := by
  simp +decide [updateMarketPrice, alistGet, alistSet]

theorem stepC5_collapse0 (u : ℕ → ℕ) (i : ℕ) (hi : i < 19) :
    Backtester.step candlesC5 "KRW-BTC" cfgC5 u
      ⟨reset 2001000 (1/2000), 0, 0, 0, 2001000, 0, 0, 0⟩ (i, candleC5) =
    ⟨⟨2001000, 2001000, 1/2000, [], [], [("KRW-BTC", 100)]⟩,
      0, 0, 0, 2001000, 0, 0, 0⟩ := by
  rw [stepC5_skip u _ i hi]
  have h1 : (⟨reset 2001000 (1/2000), 0, 0, 0, 2001000, 0, 0, 0⟩ :
      Backtester.SimState).pm = (⟨2001000, 2001000, 1/2000, [], [], []⟩ : PMState) := rfl
  rw [h1, ump0C5]

theorem stepC5_collapse1 (u : ℕ → ℕ) (i : ℕ) (hi : i < 19) :
    Backtester.step candlesC5 "KRW-BTC" cfgC5 u
      ⟨⟨2001000, 2001000, 1/2000, [], [], [("KRW-BTC", 100)]⟩,
        0, 0, 0, 2001000, 0, 0, 0⟩ (i, candleC5) =
    ⟨⟨2001000, 2001000, 1/2000, [], [], [("KRW-BTC", 100)]⟩,
      0, 0, 0, 2001000, 0, 0, 0⟩ := by
  rw [stepC5_skip u _ i hi]
  have h1 : (⟨⟨2001000, 2001000, 1/2000, [], [], [("KRW-BTC", 100)]⟩,
      0, 0, 0, 2001000, 0, 0, 0⟩ :
      Backtester.SimState).pm =
      (⟨2001000, 2001000, 1/2000, [], [], [("KRW-BTC", 100)]⟩ : PMState) := rfl
  rw [h1, umpC5]

set_option maxHeartbeats 800000 in
/-- The full replay of the flat series: exactly one trade, whose uuid is the
first draw of the run's entropy stream. -/
theorem runC5_trades (u : ℕ → ℕ) :
    (Backtester.run candlesC5 "KRW-BTC" cfgC5 u).map
        (fun r => r.trades.map (fun t => t.uuid)) = some [u 0] := by
  have he : candlesC5.enum =
      [(0, candleC5), (1, candleC5), (2, candleC5), (3, candleC5), (4, candleC5),
        (5, candleC5), (6, candleC5), (7, candleC5), (8, candleC5), (9, candleC5),
        (10, candleC5), (11, candleC5), (12, candleC5), (13, candleC5),
        (14, candleC5), (15, candleC5), (16, candleC5), (17, candleC5),
        (18, candleC5), (19, candleC5)] := by
    norm_num [candlesC5, List.enum, List.enumFrom]
  have hlen : candlesC5.length = 20 := by norm_num [candlesC5]
  have hib : cfgC5.initialBalance.getD 1000000 = 2001000 := rfl
  have hf : cfgC5.feeRate.getD (1/2000) = 1/2000 := rfl
  simp only [Backtester.run, hlen, he, hib, hf]
  rw [if_neg (show ¬ ((20 : ℕ) = 0) by norm_num)]
  simp only [List.foldl_cons, List.foldl_nil]
  rw [stepC5_collapse0 u 0 (by norm_num)]
  rw [stepC5_collapse1 u 1 (by norm_num), stepC5_collapse1 u 2 (by norm_num),
    stepC5_collapse1 u 3 (by norm_num), stepC5_collapse1 u 4 (by norm_num),
    stepC5_collapse1 u 5 (by norm_num), stepC5_collapse1 u 6 (by norm_num),
    stepC5_collapse1 u 7 (by norm_num), stepC5_collapse1 u 8 (by norm_num),
    stepC5_collapse1 u 9 (by norm_num), stepC5_collapse1 u 10 (by norm_num),
    stepC5_collapse1 u 11 (by norm_num), stepC5_collapse1 u 12 (by norm_num),
    stepC5_collapse1 u 13 (by norm_num), stepC5_collapse1 u 14 (by norm_num),
    stepC5_collapse1 u 15 (by norm_num), stepC5_collapse1 u 16 (by norm_num),
    stepC5_collapse1 u 17 (by norm_num), stepC5_collapse1 u 18 (by norm_num)]
  rw [stepC5_final_trades u]
  norm_num [Backtester.isWinTrade, Backtester.isLossTrade]

/-- Claim C5, counterexample: on the same 20-candle series and the same
config, two runs of `Backtester.run` — i.e. two draws of the `uuidv4`
entropy — both record exactly one trade, but the trade logs carry different
uuids, so the `RunResult`s are not byte-identical: the trade uuid field is
freshly random on every run. -/
theorem run_not_uuid_identical :
    (Backtester.run candlesC5 "KRW-BTC" cfgC5 (fun _ => 0)).map
        (fun r => r.trades.map (fun t => t.uuid)) = some [0] ∧
    (Backtester.run candlesC5 "KRW-BTC" cfgC5 (fun _ => 1)).map
        (fun r => r.trades.map (fun t => t.uuid)) = some [1] ∧
    Backtester.run candlesC5 "KRW-BTC" cfgC5 (fun _ => 0) ≠
      Backtester.run candlesC5 "KRW-BTC" cfgC5 (fun _ => 1) := by
  have h0 := runC5_trades (fun _ => 0)
  have h1 := runC5_trades (fun _ => 1)
  refine ⟨h0, h1, fun heq => ?_⟩
  rw [heq, h1] at h0
  simp at h0
